import Mathlib

/-!
# CA_monitor_basico — verification of the database / ETL / export layer

Shallow embedding of the persistence schema (`src/db/db_models.py`), the
database service (`src/db/db_service.py`), the ETL orchestrator
(`src/logic/etl_service.py`) and the export service
(`src/logic/excel_service.py`).

Conventions used throughout:
* SQL datetimes are modelled as `Int` (days since an arbitrary epoch), so a
  retention window of `n` days translates a `datetime.now() - timedelta(days=n)`
  bound into `now - n`.
* A nullable column is an `Option`; a Python dict key that may be absent is an
  `Option` field (a key present with value `None` is treated as absent).
* The score engine (`src/logic/score_engine.py` is not part of the sources)
  is abstracted as function parameters `fase1 : ItemRawFase1 → Int` and
  `fase2 : FichaFase2 → Int`; every theorem quantifies over them.
* A SQLAlchemy session is modelled as a working copy of the store: `commit`
  returns the working copy, `rollback` discards it and the caller keeps the
  original store.
-/

namespace CAMonitor

/-- One requested-product record (`productos_solicitados` JSON entry): at
minimum a name field, which is all the repository ever reads. -/
structure Producto where
  nombre : String
deriving DecidableEq, Repr

/-- `CaSector` of `db_models.py`. -/
structure CaSector where
  sector_id : Nat
  nombre : String
deriving DecidableEq, Repr

/-- `CaOrganismo` of `db_models.py`. -/
structure CaOrganismo where
  organismo_id : Nat
  nombre : String
  sector_id : Nat
deriving DecidableEq, Repr

/-- `CaLicitacion` of `db_models.py`. -/
structure CaLicitacion where
  ca_id : Nat
  codigo_ca : String
  nombre : Option String := none
  monto_clp : Option Int := none
  fecha_publicacion : Option Int := none
  fecha_cierre : Option Int := none
  fecha_cierre_segundo_llamado : Option Int := none
  estado_ca_texto : Option String := none
  estado_convocatoria : Option Int := none
  proveedores_cotizando : Option Int := none
  descripcion : Option String := none
  direccion_entrega : Option String := none
  productos_solicitados : Option (List Producto) := none
  puntuacion_final : Int := 0
  organismo_id : Option Nat := none
deriving DecidableEq, Repr

/-- `CaSeguimiento` of `db_models.py` (primary key `ca_id`). -/
structure CaSeguimiento where
  ca_id : Nat
  es_favorito : Bool := false
  es_ofertada : Bool := false
  notas : Option String := none
deriving DecidableEq, Repr

/-- `TipoReglaOrganismo` of `db_models.py`. -/
inductive TipoReglaOrganismo where
  | prioritario
  | no_deseado
deriving DecidableEq, Repr

/-- `CaOrganismoRegla` of `db_models.py` (`organismo_id` carries a unique
index: at most one rule per agency). -/
structure CaOrganismoRegla where
  regla_id : Nat
  organismo_id : Nat
  tipo : TipoReglaOrganismo
  puntos : Option Int
deriving DecidableEq, Repr

/-- The relational store: one list per table, plus a fresh-id allocator for
autoincrement primary keys. -/
structure BaseDatos where
  sectores : List CaSector := []
  organismos : List CaOrganismo := []
  licitaciones : List CaLicitacion := []
  seguimientos : List CaSeguimiento := []
  reglas : List CaOrganismoRegla := []
  next_id : Nat := 1
deriving DecidableEq, Repr

/-- Scoring thresholds from `config/config.py`. -/
def UMBRAL_FASE_1 : Int := 5

/-- Final-relevance threshold from `config/config.py`. -/
def UMBRAL_FINAL_RELEVANTE : Int := 9

/-! ## Generic list helper

The ORM mutates the row object returned by `session.scalars(...).first()` /
`session.get(...)`; on a list model that is: rewrite the first element
satisfying the predicate. -/

/-- Rewrite the first element satisfying `p` with `f`. -/
def updateFirst (p : α → Bool) (f : α → α) : List α → List α
  | [] => []
  | x :: xs => if p x then f x :: xs else x :: updateFirst p f xs

/-! ## DbService (`src/db/db_service.py`) -/

/-- One raw listing record of phase 1, as produced by the listing scraper: a
dict whose keys may be absent. -/
structure RawItem where
  codigo : Option String := none
  id : Option String := none
  nombre : Option String := none
  organismo : Option String := none
  unidad : Option String := none
  estado : Option String := none
  fecha_publicacion : Option Int := none
  fecha_cierre : Option Int := none
  monto_disponible_CLP : Option Int := none
  cantidad_provedores_cotizando : Option Int := none
  estado_convocatoria : Option Int := none
deriving DecidableEq, Repr

/-- `item.get("codigo", item.get("id"))` followed by the `if not codigo`
falsy test (an empty string counts as missing, like `None`). -/
def RawItem.codigoValido (item : RawItem) : Option String :=
  match item.codigo with
  | some c => if c = "" then none else some c
  | none =>
    match item.id with
    | some c => if c = "" then none else some c
    | none => none

/-- `DbService._get_or_create_organismo_sector`: resolve or create the Sector
and Organismo rows, defaulting blank names and trimming whitespace; returns
the resulting `organismo_id`. -/
def _get_or_create_organismo_sector (db : BaseDatos)
    (nombre_organismo nombre_sector : String) : BaseDatos × Nat :=
  let nombre_sector := if nombre_sector = "" then "No Especificado" else nombre_sector
  let nombre_sector_norm := nombre_sector.trim
  let nombre_organismo_norm := nombre_organismo.trim
  let paso_sector : BaseDatos × Nat :=
    match db.sectores.find? (fun s => decide (s.nombre = nombre_sector_norm)) with
    | some s => (db, s.sector_id)
    | none =>
        ({ db with sectores := db.sectores ++ [⟨db.next_id, nombre_sector_norm⟩],
                   next_id := db.next_id + 1 }, db.next_id)
  let db := paso_sector.1
  let sector_id := paso_sector.2
  let nombre_organismo_norm :=
    if nombre_organismo_norm = "" then "Organismo No Especificado" else nombre_organismo_norm
  match db.organismos.find? (fun o => decide (o.nombre = nombre_organismo_norm)) with
  | some o => (db, o.organismo_id)
  | none =>
      ({ db with organismos := db.organismos ++ [⟨db.next_id, nombre_organismo_norm, sector_id⟩],
                 next_id := db.next_id + 1 }, db.next_id)

/-- The mutation applied to an existing row by the upsert: supplier count,
status text and closing date always; convocation state only when present. -/
def actualizarDesdeRaw (item : RawItem) (l : CaLicitacion) : CaLicitacion :=
  let l := { l with proveedores_cotizando := item.cantidad_provedores_cotizando,
                    estado_ca_texto := item.estado,
                    fecha_cierre := item.fecha_cierre }
  match item.estado_convocatoria with
  | some v => { l with estado_convocatoria := some v }
  | none => l

/-- The row inserted by the upsert for an unseen code: score starts at 0. -/
def nuevaLicitacion (ca_id : Nat) (codigo : String) (organismo_id : Nat)
    (item : RawItem) : CaLicitacion :=
  { ca_id := ca_id
    codigo_ca := codigo
    nombre := item.nombre
    monto_clp := item.monto_disponible_CLP
    fecha_publicacion := item.fecha_publicacion
    fecha_cierre := item.fecha_cierre
    proveedores_cotizando := item.cantidad_provedores_cotizando
    estado_ca_texto := item.estado
    estado_convocatoria := item.estado_convocatoria
    organismo_id := some organismo_id
    puntuacion_final := 0 }

/-- Counters logged by the upsert. -/
structure UpsertCounts where
  nuevos : Nat := 0
  actualizaciones : Nat := 0
  omitidos_duplicados : Nat := 0
deriving DecidableEq, Repr

/-- The `for item in compras` body of the upsert, threading the working
session state, the `codigos_procesados` set and the counters.  `failOn`
injects a database exception while processing the record with that code
(modelling the `except Exception` path of the source). -/
def upsertLoopRaw (failOn : String → Bool) :
    List RawItem → BaseDatos → List String → UpsertCounts →
    Except Unit (BaseDatos × UpsertCounts)
  | [], db, _, counts => .ok (db, counts)
  | item :: resto, db, procesados, counts =>
    match item.codigoValido with
    | none =>
        upsertLoopRaw failOn resto db procesados
          { counts with omitidos_duplicados := counts.omitidos_duplicados + 1 }
    | some codigo =>
      if codigo ∈ procesados then
        upsertLoopRaw failOn resto db procesados
          { counts with omitidos_duplicados := counts.omitidos_duplicados + 1 }
      else if failOn codigo then
        .error ()
      else
        let nombre_org_raw := item.organismo.getD "No Especificado"
        let nombre_sec_raw := item.unidad.getD "No Especificado"
        let paso := _get_or_create_organismo_sector db nombre_org_raw nombre_sec_raw
        let db := paso.1
        let organismo_id := paso.2
        match db.licitaciones.find? (fun l => decide (l.codigo_ca = codigo)) with
        | some _ =>
            let lics := updateFirst (fun l => decide (l.codigo_ca = codigo))
              (actualizarDesdeRaw item) db.licitaciones
            upsertLoopRaw failOn resto { db with licitaciones := lics }
              (codigo :: procesados)
              { counts with actualizaciones := counts.actualizaciones + 1 }
        | none =>
            let lics := db.licitaciones ++ [nuevaLicitacion db.next_id codigo organismo_id item]
            upsertLoopRaw failOn resto
              { db with licitaciones := lics, next_id := db.next_id + 1 }
              (codigo :: procesados)
              { counts with nuevos := counts.nuevos + 1 }

/-- `DbService.insertar_o_actualizar_licitaciones_raw`: the whole batch in one
session.  On success the working state is committed; on an exception the
session is rolled back (the caller keeps the original store) and the
exception re-raised, signalled here by `none` counters. -/
def insertar_o_actualizar_licitaciones_raw (failOn : String → Bool)
    (compras : List RawItem) (db : BaseDatos) : BaseDatos × Option UpsertCounts :=
  match upsertLoopRaw failOn compras db [] {} with
  | .ok (db2, counts) => (db2, some counts)
  | .error _ => (db, none)

/-- `obtener_candidatas_para_recalculo_fase_1`: only unscored rows without a
description. -/
def obtener_candidatas_para_recalculo_fase_1 (db : BaseDatos) : List CaLicitacion :=
  db.licitaciones.filter
    (fun l => decide (l.puntuacion_final = 0) && decide (l.descripcion = none))

/-- `obtener_todas_candidatas_fase_1_para_recalculo`: every stored row. -/
def obtener_todas_candidatas_fase_1_para_recalculo (db : BaseDatos) : List CaLicitacion :=
  db.licitaciones

/-- `actualizar_puntajes_fase_1_en_lote`: one `UPDATE ... SET puntuacion_final`
per (ca_id, puntaje) mapping, in order, in one transaction. -/
def actualizar_puntajes_fase_1_en_lote (actualizaciones : List (Nat × Int))
    (db : BaseDatos) : BaseDatos :=
  let lics := actualizaciones.foldl
    (fun ls par =>
      ls.map (fun l =>
        if l.ca_id = par.1 then { l with puntuacion_final := par.2 } else l))
    db.licitaciones
  { db with licitaciones := lics }

/-- Ascending `ORDER BY fecha_cierre` (a missing date sorts last, as NULLS
LAST). -/
def fechaCierreLe (a b : Option Int) : Bool :=
  match a, b with
  | none, none => true
  | none, some _ => false
  | some _, none => true
  | some x, some y => decide (x ≤ y)

/-- `obtener_candidatas_para_fase_2`: rows at or above the phase-1 threshold
that still lack a description, soonest-closing first. -/
def obtener_candidatas_para_fase_2 (db : BaseDatos) : List CaLicitacion :=
  List.insertionSort (fun a b => fechaCierreLe a.fecha_cierre b.fecha_cierre = true)
    (db.licitaciones.filter
      (fun l => decide (UMBRAL_FASE_1 ≤ l.puntuacion_final) && decide (l.descripcion = none)))

/-- The phase-2 detail payload (`datos_fase_2` dict). -/
structure FichaFase2 where
  descripcion : Option String := none
  productos_solicitados : Option (List Producto) := none
  direccion_entrega : Option String := none
  fecha_cierre_p2 : Option Int := none
  estado_convocatoria : Option Int := none
deriving DecidableEq, Repr

/-- `actualizar_ca_con_fase_2`: merge a detail payload and a pre-computed
total score into the row with the given code; a vanished code is a no-op. -/
def actualizar_ca_con_fase_2 (codigo_ca : String) (datos : FichaFase2)
    (puntuacion_total : Int) (db : BaseDatos) : BaseDatos :=
  match db.licitaciones.find? (fun l => decide (l.codigo_ca = codigo_ca)) with
  | none => db
  | some _ =>
    let lics := updateFirst (fun l => decide (l.codigo_ca = codigo_ca))
      (fun l =>
        let l := { l with descripcion := datos.descripcion,
                          productos_solicitados := datos.productos_solicitados,
                          direccion_entrega := datos.direccion_entrega,
                          puntuacion_final := puntuacion_total,
                          fecha_cierre_segundo_llamado := datos.fecha_cierre_p2 }
        match datos.estado_convocatoria with
        | some v => { l with estado_convocatoria := some v }
        | none => l)
      db.licitaciones
    { db with licitaciones := lics }

/-- The WHERE clause of the retention DELETE.  `estado_ca_texto NOT IN (...)`
follows SQL three-valued logic: a NULL status never matches, so such a row is
not deleted. -/
def condicionLimpieza (favoritos : List Nat) (fecha_limite : Int)
    (l : CaLicitacion) : Bool :=
  (match l.fecha_cierre with
   | some fc => decide (fc < fecha_limite)
   | none => false) &&
  (match l.estado_ca_texto with
   | some s => !(decide (s = "Publicada")) && !(decide (s = "Publicada - Segundo llamado"))
   | none => false) &&
  (match l.estado_convocatoria with
   | none => true
   | some v => decide (v ≠ 2)) &&
  !(decide (l.ca_id ∈ favoritos))

/-- `limpiar_registros_antiguos`: delete old, non-published, non-favorite
rows (the FK cascade also removes their tracking rows) and return the
rowcount. -/
def limpiar_registros_antiguos (dias_retencion : Int) (now : Int)
    (db : BaseDatos) : BaseDatos × Nat :=
  let fecha_limite := now - dias_retencion
  let subquery_favoritos := (db.seguimientos.filter (fun s => s.es_favorito)).map (·.ca_id)
  let eliminadas := db.licitaciones.filter (condicionLimpieza subquery_favoritos fecha_limite)
  let restantes := db.licitaciones.filter (fun l => !(condicionLimpieza subquery_favoritos fecha_limite l))
  ({ db with licitaciones := restantes,
             seguimientos := db.seguimientos.filter
               (fun s => !(eliminadas.any (fun l => decide (l.ca_id = s.ca_id)))) },
   eliminadas.length)

/-- `obtener_datos_tab1_candidatas`: score ≥ phase-1 threshold, score
descending. -/
def obtener_datos_tab1_candidatas (db : BaseDatos) : List CaLicitacion :=
  List.insertionSort (fun a b => b.puntuacion_final ≤ a.puntuacion_final)
    (db.licitaciones.filter (fun l => decide (UMBRAL_FASE_1 ≤ l.puntuacion_final)))

/-- `obtener_datos_tab2_relevantes`: score ≥ final threshold, score
descending. -/
def obtener_datos_tab2_relevantes (db : BaseDatos) : List CaLicitacion :=
  List.insertionSort (fun a b => b.puntuacion_final ≤ a.puntuacion_final)
    (db.licitaciones.filter (fun l => decide (UMBRAL_FINAL_RELEVANTE ≤ l.puntuacion_final)))

/-- `obtener_datos_tab3_seguimiento`: rows joined to a favorite tracking row,
closing date ascending. -/
def obtener_datos_tab3_seguimiento (db : BaseDatos) : List CaLicitacion :=
  List.insertionSort (fun a b => fechaCierreLe a.fecha_cierre b.fecha_cierre = true)
    (db.licitaciones.filter
      (fun l => db.seguimientos.any (fun s => decide (s.ca_id = l.ca_id) && s.es_favorito)))

/-- `obtener_datos_tab4_ofertadas`: rows joined to a bid-submitted tracking
row, closing date ascending. -/
def obtener_datos_tab4_ofertadas (db : BaseDatos) : List CaLicitacion :=
  List.insertionSort (fun a b => fechaCierreLe a.fecha_cierre b.fecha_cierre = true)
    (db.licitaciones.filter
      (fun l => db.seguimientos.any (fun s => decide (s.ca_id = l.ca_id) && s.es_ofertada)))

/-- `DbService._gestionar_seguimiento`: update the tracking row when one
exists (bid-submitted = true also forces favorite = true); otherwise create
one only when some flag is being set truthy. -/
def _gestionar_seguimiento (ca_id : Nat) (es_favorito es_ofertada : Option Bool)
    (db : BaseDatos) : BaseDatos :=
  match db.seguimientos.find? (fun s => decide (s.ca_id = ca_id)) with
  | some _ =>
      let segs := updateFirst (fun s => decide (s.ca_id = ca_id))
        (fun s =>
          let s := match es_favorito with
                   | some v => { s with es_favorito := v }
                   | none => s
          match es_ofertada with
          | some v =>
              let s := { s with es_ofertada := v }
              if v then { s with es_favorito := true } else s
          | none => s)
        db.seguimientos
      { db with seguimientos := segs }
  | none =>
      if es_favorito.getD false || es_ofertada.getD false then
        { db with seguimientos := db.seguimientos ++
            [{ ca_id := ca_id
               es_favorito := es_favorito.getD false || es_ofertada.getD false
               es_ofertada := es_ofertada.getD false
               notas := none }] }
      else db

/-- `gestionar_favorito`. -/
def gestionar_favorito (ca_id : Nat) (es_favorito : Bool) (db : BaseDatos) : BaseDatos :=
  _gestionar_seguimiento ca_id (some es_favorito) none db

/-- `gestionar_ofertada`. -/
def gestionar_ofertada (ca_id : Nat) (es_ofertada : Bool) (db : BaseDatos) : BaseDatos :=
  _gestionar_seguimiento ca_id none (some es_ofertada) db

/-- `actualizar_nota_seguimiento`: set the note on the tracking row, creating
it (with both flags false) when absent. -/
def actualizar_nota_seguimiento (ca_id : Nat) (nueva_nota : String)
    (db : BaseDatos) : BaseDatos :=
  match db.seguimientos.find? (fun s => decide (s.ca_id = ca_id)) with
  | some _ =>
      let segs := updateFirst (fun s => decide (s.ca_id = ca_id))
        (fun s => { s with notas := some nueva_nota })
        db.seguimientos
      { db with seguimientos := segs }
  | none =>
      { db with seguimientos := db.seguimientos ++
          [{ ca_id := ca_id, es_favorito := false, es_ofertada := false,
             notas := some nueva_nota }] }

/-- `set_organismo_regla`: `no_deseado` forces a null point value; a
`prioritario` rule without points raises `ValueError` before the session is
opened; otherwise the agency's existing rule is replaced in place, or a new
one inserted. -/
def set_organismo_regla (organismo_id : Nat) (tipo : TipoReglaOrganismo)
    (puntos : Option Int) (db : BaseDatos) : Except Unit BaseDatos :=
  let puntos := if tipo = .no_deseado then none else puntos
  if tipo = .prioritario ∧ puntos = none then
    .error ()
  else
    match db.reglas.find? (fun r => decide (r.organismo_id = organismo_id)) with
    | some _ =>
        let rs := updateFirst (fun r => decide (r.organismo_id = organismo_id))
          (fun r => { r with tipo := tipo, puntos := puntos })
          db.reglas
        .ok { db with reglas := rs }
    | none =>
        .ok { db with reglas := db.reglas ++ [⟨db.next_id, organismo_id, tipo, puntos⟩],
                      next_id := db.next_id + 1 }

/-! ## EtlService (`src/logic/etl_service.py`)

The score engine (not among the sources) is abstracted as the parameters
`fase1` and `fase2`; the detail scraper as `scrape : String → Option FichaFase2`
(`None` = the per-item skip path). -/

/-- The `item_raw` dict handed to phase-1 scoring by
`_transform_puntajes_fase_1` / `run_recalculo_total_fase_1` (with a
`codigo` key) and by `run_fase2_update` (without one). -/
structure ItemRawFase1 where
  codigo : Option String := none
  nombre : Option String := none
  estado_ca_texto : Option String := none
  organismo_comprador : String := ""
deriving DecidableEq, Repr

/-- `licitacion.organismo.nombre if licitacion.organismo else ""`, resolving
the eagerly-joined agency row. -/
def nombreOrganismoDe (db : BaseDatos) (l : CaLicitacion) : String :=
  match l.organismo_id.bind
      (fun oid => db.organismos.find? (fun o => decide (o.organismo_id = oid))) with
  | some o => o.nombre
  | none => ""

/-- The `item_raw` built inside `_transform_puntajes_fase_1` (and the total
recalculation), which includes the `codigo` key. -/
def itemRawTransform (db : BaseDatos) (l : CaLicitacion) : ItemRawFase1 :=
  { codigo := some l.codigo_ca
    nombre := l.nombre
    estado_ca_texto := l.estado_ca_texto
    organismo_comprador := nombreOrganismoDe db l }

/-- The `item_raw` built inside `run_fase2_update`, which omits the `codigo`
key. -/
def itemRawFicha (db : BaseDatos) (l : CaLicitacion) : ItemRawFase1 :=
  { codigo := none
    nombre := l.nombre
    estado_ca_texto := l.estado_ca_texto
    organismo_comprador := nombreOrganismoDe db l }

/-- `EtlService._transform_puntajes_fase_1`: score every row returned by the
all-rows selection and bulk-write the results. -/
def _transform_puntajes_fase_1 (fase1 : ItemRawFase1 → Int) (db : BaseDatos) :
    BaseDatos :=
  let licitaciones_a_puntuar := obtener_todas_candidatas_fase_1_para_recalculo db
  let lista_para_actualizar :=
    licitaciones_a_puntuar.map (fun l => (l.ca_id, fase1 (itemRawTransform db l)))
  actualizar_puntajes_fase_1_en_lote lista_para_actualizar db

/-- One call to `actualizar_ca_con_fase_2` performed by a phase-2 loop, kept
as an audit record: the code, the detail payload, and the total score
written. -/
structure MergeFase2 where
  codigo_ca : String
  datos : FichaFase2
  puntuacion_total : Int
deriving DecidableEq, Repr

/-- The phase-2 loop of `run_etl_live_to_db` (step 5): for each candidate, in
order, scrape its detail (skipping on `None`) and merge back the stored
phase-1 score plus the phase-2 contribution.  Also returns the merges
performed. -/
def bucleFase2Live (scrape : String → Option FichaFase2) (fase2 : FichaFase2 → Int) :
    List CaLicitacion → BaseDatos → BaseDatos × List MergeFase2
  | [], db => (db, [])
  | licitacion :: resto, db =>
    match scrape licitacion.codigo_ca with
    | none => bucleFase2Live scrape fase2 resto db
    | some datos_ficha =>
      let puntuacion_total := licitacion.puntuacion_final + fase2 datos_ficha
      let db := actualizar_ca_con_fase_2 licitacion.codigo_ca datos_ficha puntuacion_total db
      let resultado := bucleFase2Live scrape fase2 resto db
      (resultado.1, ⟨licitacion.codigo_ca, datos_ficha, puntuacion_total⟩ :: resultado.2)

/-- Steps 3–5 of `run_etl_live_to_db` (after the listing scrape and raw
load): transform phase-1 scores, select the phase-2 candidates, and run the
detail loop. -/
def run_etl_live_to_db_desde_transform (fase1 : ItemRawFase1 → Int)
    (fase2 : FichaFase2 → Int) (scrape : String → Option FichaFase2)
    (db : BaseDatos) : BaseDatos × List MergeFase2 :=
  let db := _transform_puntajes_fase_1 fase1 db
  let candidatas := obtener_candidatas_para_fase_2 db
  bucleFase2Live scrape fase2 candidatas db

/-- `cas_a_procesar_map[ca.ca_id] = ca`: Python-dict insertion (replace the
value in place when the key exists, else append). -/
def pyDictInsert (m : List (Nat × CaLicitacion)) (k : Nat) (v : CaLicitacion) :
    List (Nat × CaLicitacion) :=
  if m.any (fun kv => decide (kv.1 = k)) then
    m.map (fun kv => if kv.1 = k then (k, v) else kv)
  else m ++ [(k, v)]

/-- The candidate selection of `run_fase2_update`: tabs 2, 3 and 4,
de-duplicated by `ca_id` through a Python dict. -/
def seleccion_fase2_update (db : BaseDatos) : List CaLicitacion :=
  let cas_tab2 := obtener_datos_tab2_relevantes db
  let cas_tab3 := obtener_datos_tab3_seguimiento db
  let cas_tab4 := obtener_datos_tab4_ofertadas db
  ((cas_tab2 ++ cas_tab3 ++ cas_tab4).foldl
      (fun m ca => pyDictInsert m ca.ca_id ca) []).map Prod.snd

/-- The refresh loop of `run_fase2_update`: recompute the phase-1 score fresh
(from the rows as loaded at selection time, `db0`), skip rows whose fresh
score is negative, scrape, and merge phase-1 + phase-2. -/
def bucleFase2Update (fase1 : ItemRawFase1 → Int) (fase2 : FichaFase2 → Int)
    (scrape : String → Option FichaFase2) (db0 : BaseDatos) :
    List CaLicitacion → BaseDatos → BaseDatos × List MergeFase2
  | [], db => (db, [])
  | licitacion :: resto, db =>
    let puntos_fase_1 := fase1 (itemRawFicha db0 licitacion)
    if puntos_fase_1 < 0 then
      bucleFase2Update fase1 fase2 scrape db0 resto db
    else
      match scrape licitacion.codigo_ca with
      | none => bucleFase2Update fase1 fase2 scrape db0 resto db
      | some datos_ficha =>
        let puntuacion_total := puntos_fase_1 + fase2 datos_ficha
        let db := actualizar_ca_con_fase_2 licitacion.codigo_ca datos_ficha puntuacion_total db
        let resultado := bucleFase2Update fase1 fase2 scrape db0 resto db
        (resultado.1, ⟨licitacion.codigo_ca, datos_ficha, puntuacion_total⟩ :: resultado.2)

/-- `EtlService.run_fase2_update`: refresh the union of tabs 2–4. -/
def run_fase2_update (fase1 : ItemRawFase1 → Int) (fase2 : FichaFase2 → Int)
    (scrape : String → Option FichaFase2) (db : BaseDatos) :
    BaseDatos × List MergeFase2 :=
  bucleFase2Update fase1 fase2 scrape db (seleccion_fase2_update db) db

/-! ## ExcelService (`src/logic/excel_service.py`) -/

/-- ASCII single quote, used to render Python `str()` of a dict. -/
def pyQuote : String := String.singleton (Char.ofNat 39)

/-- ASCII left brace. -/
def pyLBrace : String := String.singleton (Char.ofNat 123)

/-- ASCII right brace. -/
def pyRBrace : String := String.singleton (Char.ofNat 125)

/-- Python `str()` of one requested-product dict `\x7b'nombre': '...'\x7d`. -/
def pyStrProducto (p : Producto) : String :=
  pyLBrace ++ pyQuote ++ "nombre" ++ pyQuote ++ ": " ++ pyQuote ++ p.nombre ++ pyQuote ++ pyRBrace

/-- Python `str()` of the stored product list, as written to the export's
`Productos` cell by `str(ca.productos_solicitados)`. -/
def pyStrProductos (ps : List Producto) : String :=
  "[" ++ String.intercalate ", " (ps.map pyStrProducto) ++ "]"

/-- `"Productos": str(ca.productos_solicitados) if ca.productos_solicitados
else None` (an empty list is falsy). -/
def productosExportCell (ps : Option (List Producto)) : Option String :=
  match ps with
  | none => none
  | some l => if l = [] then none else some (pyStrProductos l)

/-- One row built by `ExcelService._convertir_a_dataframe` (closing
date-times are written timezone-naive; on the `Int` model that is the
identity). -/
structure ExportRow where
  score : Int
  codigo_ca : String
  nombre : Option String
  descripcion : Option String
  organismo : String
  direccion_entrega : Option String
  estado : Option String
  fecha_publicacion : Option Int
  fecha_cierre : Option Int
  fecha_cierre_2do_llamado : Option Int
  proveedores : Option Int
  productos : Option String
  favorito : Bool
  ofertada : Bool
deriving DecidableEq, Repr

/-- The dict appended per opportunity by `_convertir_a_dataframe`. -/
def _convertir_a_fila (db : BaseDatos) (ca : CaLicitacion) : ExportRow :=
  { score := ca.puntuacion_final
    codigo_ca := ca.codigo_ca
    nombre := ca.nombre
    descripcion := ca.descripcion
    organismo := match ca.organismo_id.bind
        (fun oid => db.organismos.find? (fun o => decide (o.organismo_id = oid))) with
      | some o => o.nombre
      | none => "N/A"
    direccion_entrega := ca.direccion_entrega
    estado := ca.estado_ca_texto
    fecha_publicacion := ca.fecha_publicacion
    fecha_cierre := ca.fecha_cierre
    fecha_cierre_2do_llamado := ca.fecha_cierre_segundo_llamado
    proveedores := ca.proveedores_cotizando
    productos := productosExportCell ca.productos_solicitados
    favorito := match db.seguimientos.find? (fun s => decide (s.ca_id = ca.ca_id)) with
      | some s => s.es_favorito
      | none => false
    ofertada := match db.seguimientos.find? (fun s => decide (s.ca_id = ca.ca_id)) with
      | some s => s.es_ofertada
      | none => false }

/-- The 14 detailed-schema column labels of `_convertir_a_dataframe` /
`_aplicar_schema_dataframe`. -/
def columnas_detalladas : List String :=
  ["Score", "Código CA", "Nombre", "Descripcion", "Organismo",
   "Dirección Entrega", "Estado", "Fecha Publicación", "Fecha Cierre",
   "Fecha Cierre 2do Llamado", "Productos", "Proveedores",
   "Favorito", "Ofertada"]

/-- The 9 simple-schema column labels used for the Candidates tab. -/
def columnas_tab_1 : List String :=
  ["Score", "Código CA", "Nombre", "Organismo", "Dirección Entrega",
   "Estado", "Fecha Publicación", "Fecha Cierre", "Proveedores"]

/-- Python `tab_name.startswith(prefijo)`, on the character-list model (the
built-in `String.startsWith` does not reduce inside the kernel). -/
def pyStartsWith (s prefijo : String) : Bool :=
  prefijo.data.isPrefixOf s.data

/-- `ExcelService._aplicar_schema_dataframe`, reduced to the column list the
reindex keeps. -/
def _aplicar_schema_columnas (tab_name : String) : List String :=
  if pyStartsWith tab_name "CAs Candidatas" then columnas_tab_1
  else columnas_detalladas

/-- Modelled from the spec: the semicolon-joined, 100-character-truncated
rendering of the requested-products list that the spec attributes to the
exported tabs (it is the formatting of `table_manager_mixin.py`). -/
def productosSemicolonTruncadoSpec (ps : List Producto) : String :=
  let s := String.intercalate "; " (ps.map (·.nombre))
  if 100 < s.length then (s.take 100) ++ "..." else s

/-! ## Proof-layer definitions and concrete example stores -/

/-- The cumulative effect of the bulk-update mappings on a single row. -/
def updCell (us : List (Nat × Int)) (l : CaLicitacion) : CaLicitacion :=
  us.foldl
    (fun x par => if x.ca_id = par.1 then { x with puntuacion_final := par.2 } else x) l

/-- A one-row store used to instantiate the C1 theorem. -/
def dbEjemploC1 : BaseDatos :=
  { licitaciones := [{ ca_id := 1, codigo_ca := "1234-1-COT25" }] }

/-- A concrete detail payload used to instantiate the C1 theorem. -/
def fichaEjemploC1 : FichaFase2 := { descripcion := some "detalle" }

/-- A store holding one opportunity that is already enriched (it has a
description) and already scored (7 points). -/
def dbEjemploC2 : BaseDatos :=
  { licitaciones := [{ ca_id := 1, codigo_ca := "5555-55-COT25",
                       descripcion := some "ya detallada", puntuacion_final := 7 }] }

/-- A 60-days-old opportunity with no status text and no convocation
flag. -/
def caEjemploC3 : CaLicitacion :=
  { ca_id := 1, codigo_ca := "9999-9-COT25", fecha_cierre := some (-60) }

/-- A store holding only `caEjemploC3` and no tracking rows. -/
def dbEjemploC3 : BaseDatos := { licitaciones := [caEjemploC3] }

/-- Two concrete raw records sharing the code used to instantiate C4. -/
def rawEjemplo1 : RawItem :=
  { codigo := some "4444-4-COT25", estado := some "Publicada",
    fecha_cierre := some 10, cantidad_provedores_cotizando := some 1 }

/-- Second record for the C4 witness: same code, different mutable fields. -/
def rawEjemplo2 : RawItem :=
  { codigo := some "4444-4-COT25", estado := some "Cerrada",
    fecha_cierre := some 12, cantidad_provedores_cotizando := some 5,
    estado_convocatoria := some 2 }

/-- The effective codes of a batch that the loop will actually process given
the codes already seen: missing/empty codes drop out, already-seen codes
drop out. -/
def codigosNuevos (compras : List RawItem) (procesados : List String) : List String :=
  (compras.filterMap RawItem.codigoValido).filter (fun c => !(decide (c ∈ procesados)))

/-- First occurrence of every code, in order. -/
def dedupFirst : List String → List String
  | [] => []
  | c :: cs => c :: dedupFirst (cs.filter (fun x => !(decide (x = c))))
termination_by l => l.length
decreasing_by
  simp only [List.length_cons]
  exact Nat.lt_succ_of_le (List.length_filter_le _ _)

/-- One concrete requested product for the export counterexample. -/
def productoEjemplo : Producto := { nombre := "Amoxicilina" }

/-- An enriched opportunity holding one requested product. -/
def caEjemploC8 : CaLicitacion :=
  { ca_id := 1, codigo_ca := "7777-7-COT25",
    productos_solicitados := some [productoEjemplo] }

/-- Store for the export counterexample. -/
def dbEjemploC8 : BaseDatos := { licitaciones := [caEjemploC8] }

/-! ## Lemmas and claim theorems -/

theorem length_updateFirst (p : α → Bool) (f : α → α) (ls : List α) :
    (updateFirst p f ls).length = ls.length := by
  induction ls with
  | nil => rfl
  | cons x xs ih =>
    simp only [updateFirst]
    by_cases h : p x <;> simp [h, ih]

theorem map_updateFirst (p : α → Bool) (f : α → α) (g : α → β)
    (hg : ∀ a, g (f a) = g a) (ls : List α) :
    (updateFirst p f ls).map g = ls.map g := by
  induction ls with
  | nil => rfl
  | cons x xs ih =>
    simp only [updateFirst]
    by_cases h : p x <;> simp [h, ih, hg]

theorem mem_updateFirst (p : α → Bool) (f : α → α) (ls : List α)
    (a : α) (ha : a ∈ updateFirst p f ls) :
    a ∈ ls ∨ ∃ x ∈ ls, p x = true ∧ a = f x := by
  induction ls with
  | nil => simp [updateFirst] at ha
  | cons x xs ih =>
    simp only [updateFirst] at ha
    by_cases h : p x
    · rw [if_pos h] at ha
      rcases List.mem_cons.mp ha with rfl | ha2
      · exact Or.inr ⟨x, List.mem_cons_self x xs, h, rfl⟩
      · exact Or.inl (List.mem_cons_of_mem _ ha2)
    · rw [if_neg h] at ha
      rcases List.mem_cons.mp ha with rfl | ha2
      · exact Or.inl (List.mem_cons_self _ _)
      · rcases ih ha2 with h' | ⟨y, hy, hpy, hay⟩
        · exact Or.inl (List.mem_cons_of_mem _ h')
        · exact Or.inr ⟨y, List.mem_cons_of_mem _ hy, hpy, hay⟩

theorem find?_updateFirst (p : α → Bool) (f : α → α) (ls : List α)
    (x : α) (hfind : ls.find? p = some x) (hfx : p (f x) = true) :
    (updateFirst p f ls).find? p = some (f x) := by
  induction ls with
  | nil => simp at hfind
  | cons y ys ih =>
    by_cases h : p y
    · rw [List.find?_cons_of_pos _ h] at hfind
      injection hfind with hxy
      subst hxy
      simp only [updateFirst, if_pos h]
      exact List.find?_cons_of_pos _ hfx
    · rw [List.find?_cons_of_neg _ h] at hfind
      simp only [updateFirst, if_neg h]
      rw [List.find?_cons_of_neg _ h]
      exact ih hfind

theorem find?_append_right (p : α → Bool) (ls : List α) (a : α)
    (hnone : ls.find? p = none) (ha : p a = true) :
    (ls ++ [a]).find? p = some a := by
  induction ls with
  | nil => simp [List.find?_cons_of_pos _ ha]
  | cons y ys ih =>
    have hy : ¬ (p y = true) := by
      intro h
      rw [List.find?_cons_of_pos ys h] at hnone
      exact Option.noConfusion hnone
    rw [List.find?_cons_of_neg ys hy] at hnone
    simp only [List.cons_append]
    rw [List.find?_cons_of_neg _ hy]
    exact ih hnone

theorem filter_eq_nil_of_find?_none (p : α → Bool) (ls : List α)
    (hnone : ls.find? p = none) : ls.filter p = [] := by
  rw [List.find?_eq_none] at hnone
  rw [List.filter_eq_nil_iff]
  exact hnone

/-- With pairwise-distinct keys, the first hit for a key is the only hit. -/
theorem filter_key_single {κ : Type} [DecidableEq κ] (g : α → κ) (c : κ)
    (ls : List α) (hnd : (ls.map g).Nodup) (x : α)
    (hfind : ls.find? (fun a => decide (g a = c)) = some x) :
    ls.filter (fun a => decide (g a = c)) = [x] := by
  induction ls with
  | nil => simp at hfind
  | cons y ys ih =>
    simp only [List.map_cons, List.nodup_cons] at hnd
    by_cases h : g y = c
    · rw [List.find?_cons_of_pos _ (by simp [h])] at hfind
      injection hfind with hxy
      subst hxy
      have hys : ys.filter (fun a => decide (g a = c)) = [] := by
        rw [List.filter_eq_nil_iff]
        intro b hb
        simp only [decide_eq_true_iff]
        intro hbc
        have hmem : g b ∈ ys.map g := List.mem_map_of_mem g hb
        rw [hbc, ← h] at hmem
        exact hnd.1 hmem
      simp [List.filter_cons, h, hys]
    · rw [List.find?_cons_of_neg _ (by simp [h])] at hfind
      simp [List.filter_cons, h, ih hnd.2 hfind]

theorem lote_foldl_eq_map (us : List (Nat × Int)) (ls : List CaLicitacion) :
    us.foldl
      (fun ls par =>
        ls.map (fun l =>
          if l.ca_id = par.1 then { l with puntuacion_final := par.2 } else l))
      ls = ls.map (updCell us) := by
  induction us generalizing ls with
  | nil =>
    simp only [List.foldl_nil]
    exact (List.map_id ls).symm
  | cons u us ih =>
    simp only [List.foldl_cons]
    rw [ih, List.map_map]
    apply List.map_congr_left
    intro a _
    simp [updCell, Function.comp]

theorem updCell_id (us : List (Nat × Int)) (l : CaLicitacion)
    (h : ∀ par ∈ us, par.1 ≠ l.ca_id) : updCell us l = l := by
  induction us with
  | nil => rfl
  | cons u us ih =>
    have h1 : ¬ (l.ca_id = u.1) := fun he => h u (List.mem_cons_self _ _) he.symm
    simp only [updCell, List.foldl_cons, if_neg h1]
    exact ih (fun par hp => h par (List.mem_cons_of_mem _ hp))

theorem updCell_pairs (ls : List CaLicitacion) (f : CaLicitacion → Int)
    (hnd : (ls.map (·.ca_id)).Nodup) (l : CaLicitacion) (hl : l ∈ ls) :
    updCell (ls.map (fun x => (x.ca_id, f x))) l = { l with puntuacion_final := f l } := by
  induction ls with
  | nil => cases hl
  | cons x xs ih =>
    simp only [List.map_cons, List.nodup_cons] at hnd
    rcases List.mem_cons.mp hl with rfl | hl2
    · simp only [List.map_cons, updCell, List.foldl_cons, if_pos rfl]
      have hrest : ∀ par ∈ xs.map (fun y => (y.ca_id, f y)),
          par.1 ≠ ({ l with puntuacion_final := f l } : CaLicitacion).ca_id := by
        intro par hp
        rcases List.mem_map.mp hp with ⟨y, hy, rfl⟩
        intro he
        exact hnd.1 (he ▸ List.mem_map_of_mem (·.ca_id) hy)
      exact updCell_id _ _ hrest
    · have hne : ¬ (l.ca_id = x.ca_id) := by
        intro he
        exact hnd.1 (he ▸ List.mem_map_of_mem (·.ca_id) hl2)
      simp only [List.map_cons, updCell, List.foldl_cons, if_neg hne]
      exact ih hnd.2 hl2

/-- The phase-1 transform rescores every stored row from the current rules
(the selection is the all-rows one). -/
theorem transform_licitaciones (fase1 : ItemRawFase1 → Int) (db : BaseDatos)
    (hnd : (db.licitaciones.map (·.ca_id)).Nodup) :
    (_transform_puntajes_fase_1 fase1 db).licitaciones
      = db.licitaciones.map
          (fun l => { l with puntuacion_final := fase1 (itemRawTransform db l) }) := by
  simp only [_transform_puntajes_fase_1, obtener_todas_candidatas_fase_1_para_recalculo,
    actualizar_puntajes_fase_1_en_lote]
  rw [lote_foldl_eq_map]
  apply List.map_congr_left
  intro l hl
  exact updCell_pairs _ _ hnd l hl

theorem transform_organismos (fase1 : ItemRawFase1 → Int) (db : BaseDatos) :
    (_transform_puntajes_fase_1 fase1 db).organismos = db.organismos := rfl

/-- Every row of the transformed store carries exactly its freshly
recomputed phase-1 score. -/
theorem puntuacion_tras_transform (fase1 : ItemRawFase1 → Int) (db : BaseDatos)
    (hnd : (db.licitaciones.map (·.ca_id)).Nodup) (l : CaLicitacion)
    (hl : l ∈ (_transform_puntajes_fase_1 fase1 db).licitaciones) :
    l.puntuacion_final = fase1 (itemRawTransform (_transform_puntajes_fase_1 fase1 db) l) := by
  rw [transform_licitaciones fase1 db hnd] at hl
  rcases List.mem_map.mp hl with ⟨l0, _, rfl⟩
  rfl

theorem mem_candidatas_fase_2 (db : BaseDatos) (l : CaLicitacion)
    (hl : l ∈ obtener_candidatas_para_fase_2 db) :
    l ∈ db.licitaciones ∧ UMBRAL_FASE_1 ≤ l.puntuacion_final ∧ l.descripcion = none := by
  unfold obtener_candidatas_para_fase_2 at hl
  rw [List.Perm.mem_iff (List.perm_insertionSort _ _)] at hl
  rw [List.mem_filter] at hl
  refine ⟨hl.1, ?_, ?_⟩ <;> [exact of_decide_eq_true (Bool.and_elim_left hl.2);
    exact of_decide_eq_true (Bool.and_elim_right hl.2)]

theorem mem_bucleFase2Live (scrape : String → Option FichaFase2)
    (fase2 : FichaFase2 → Int) (cands : List CaLicitacion) (db : BaseDatos)
    (fus : MergeFase2) (h : fus ∈ (bucleFase2Live scrape fase2 cands db).2) :
    ∃ l ∈ cands, fus.codigo_ca = l.codigo_ca ∧ scrape l.codigo_ca = some fus.datos ∧
      fus.puntuacion_total = l.puntuacion_final + fase2 fus.datos := by
  induction cands generalizing db with
  | nil => simp [bucleFase2Live] at h
  | cons l resto ih =>
    simp only [bucleFase2Live] at h
    cases hs : scrape l.codigo_ca with
    | none =>
      rw [hs] at h
      rcases ih _ h with ⟨x, hx, h1, h2, h3⟩
      exact ⟨x, List.mem_cons_of_mem _ hx, h1, h2, h3⟩
    | some ficha =>
      rw [hs] at h
      dsimp only at h
      rcases List.mem_cons.mp h with rfl | h2
      · exact ⟨l, List.mem_cons_self _ _, rfl, hs, rfl⟩
      · rcases ih _ h2 with ⟨x, hx, h1', h2', h3'⟩
        exact ⟨x, List.mem_cons_of_mem _ hx, h1', h2', h3'⟩

theorem mem_bucleFase2Update (fase1 : ItemRawFase1 → Int) (fase2 : FichaFase2 → Int)
    (scrape : String → Option FichaFase2) (db0 : BaseDatos)
    (cands : List CaLicitacion) (db : BaseDatos) (fus : MergeFase2)
    (h : fus ∈ (bucleFase2Update fase1 fase2 scrape db0 cands db).2) :
    ∃ l ∈ cands, fus.codigo_ca = l.codigo_ca ∧ scrape l.codigo_ca = some fus.datos ∧
      fus.puntuacion_total = fase1 (itemRawFicha db0 l) + fase2 fus.datos ∧
      ¬ fase1 (itemRawFicha db0 l) < 0 := by
  induction cands generalizing db with
  | nil => simp [bucleFase2Update] at h
  | cons l resto ih =>
    simp only [bucleFase2Update] at h
    by_cases hneg : fase1 (itemRawFicha db0 l) < 0
    · rw [if_pos hneg] at h
      rcases ih _ h with ⟨x, hx, h1, h2, h3, h4⟩
      exact ⟨x, List.mem_cons_of_mem _ hx, h1, h2, h3, h4⟩
    · rw [if_neg hneg] at h
      cases hs : scrape l.codigo_ca with
      | none =>
        rw [hs] at h
        rcases ih _ h with ⟨x, hx, h1, h2, h3, h4⟩
        exact ⟨x, List.mem_cons_of_mem _ hx, h1, h2, h3, h4⟩
      | some ficha =>
        rw [hs] at h
        dsimp only at h
        rcases List.mem_cons.mp h with rfl | h2
        · exact ⟨l, List.mem_cons_self _ _, rfl, hs, rfl, hneg⟩
        · rcases ih _ h2 with ⟨x, hx, h1', h2', h3', h4'⟩
          exact ⟨x, List.mem_cons_of_mem _ hx, h1', h2', h3', h4'⟩

/-- C1: for every phase-2 merge performed by the orchestrator — in the
live-scrape-to-database run (modelled from its transform step onward) and in
the fiche/detail refresh — the final score written equals the phase-1 score
recomputed at update time from the current ruleset (the abstract engine
`fase1`, applied to the row's current fields) plus the phase-2 contribution
computed from the detail payload.  In the live run the loop adds the stored
`puntuacion_final`, which the theorem shows equals the fresh recomputation,
because step 3 has just rescored every row from the same ruleset. -/
theorem C1_puntaje_final_fase2 (fase1 : ItemRawFase1 → Int) (fase2 : FichaFase2 → Int)
    (scrape : String → Option FichaFase2) (db : BaseDatos)
    (hnd : (db.licitaciones.map (·.ca_id)).Nodup) :
    (∀ fus ∈ (run_etl_live_to_db_desde_transform fase1 fase2 scrape db).2,
      ∃ l ∈ (_transform_puntajes_fase_1 fase1 db).licitaciones,
        fus.codigo_ca = l.codigo_ca ∧ scrape l.codigo_ca = some fus.datos ∧
        fus.puntuacion_total
          = fase1 (itemRawTransform (_transform_puntajes_fase_1 fase1 db) l)
              + fase2 fus.datos)
    ∧ (∀ fus ∈ (run_fase2_update fase1 fase2 scrape db).2,
      ∃ l ∈ seleccion_fase2_update db,
        fus.codigo_ca = l.codigo_ca ∧ scrape l.codigo_ca = some fus.datos ∧
        fus.puntuacion_total = fase1 (itemRawFicha db l) + fase2 fus.datos) := by
  constructor
  · intro fus h
    have h' : fus ∈ (bucleFase2Live scrape fase2
        (obtener_candidatas_para_fase_2 (_transform_puntajes_fase_1 fase1 db))
        (_transform_puntajes_fase_1 fase1 db)).2 := h
    rcases mem_bucleFase2Live _ _ _ _ _ h' with ⟨l, hl, h1, h2, h3⟩
    have hmem := (mem_candidatas_fase_2 _ _ hl).1
    refine ⟨l, hmem, h1, h2, ?_⟩
    rw [h3, puntuacion_tras_transform fase1 db hnd l hmem]
  · intro fus h
    rcases mem_bucleFase2Update _ _ _ _ _ _ _ h with ⟨l, hl, h1, h2, h3, _⟩
    exact ⟨l, hl, h1, h2, h3⟩

/-- Witness for C1 at a concrete store, engine and scraper. -/
theorem C1_puntaje_final_fase2_witness :
    ((dbEjemploC1.licitaciones.map (·.ca_id)).Nodup) ∧
    ((∀ fus ∈ (run_etl_live_to_db_desde_transform (fun _ => 6) (fun _ => 4)
        (fun _ => some fichaEjemploC1) dbEjemploC1).2,
      ∃ l ∈ (_transform_puntajes_fase_1 (fun _ => 6) dbEjemploC1).licitaciones,
        fus.codigo_ca = l.codigo_ca ∧
        (fun _ => some fichaEjemploC1) l.codigo_ca = some fus.datos ∧
        fus.puntuacion_total
          = (fun _ => (6 : Int))
              (itemRawTransform (_transform_puntajes_fase_1 (fun _ => 6) dbEjemploC1) l)
              + (fun _ => (4 : Int)) fus.datos)
    ∧ (∀ fus ∈ (run_fase2_update (fun _ => 6) (fun _ => 4)
        (fun _ => some fichaEjemploC1) dbEjemploC1).2,
      ∃ l ∈ seleccion_fase2_update dbEjemploC1,
        fus.codigo_ca = l.codigo_ca ∧
        (fun _ => some fichaEjemploC1) l.codigo_ca = some fus.datos ∧
        fus.puntuacion_total
          = (fun _ => (6 : Int)) (itemRawFicha dbEjemploC1 l) + (fun _ => (4 : Int)) fus.datos)) :=
  ⟨by decide,
   C1_puntaje_final_fase2 (fun _ => 6) (fun _ => 4) (fun _ => some fichaEjemploC1)
     dbEjemploC1 (by decide)⟩

/-- C2 counterexample: the live run's phase-1 scoring step rescores an
opportunity that already has a description (7 → 3 under an engine returning
3), even though the only-unscored-and-without-description selection would
have selected nothing.  This refutes the claim that the step rescores
exactly the rows lacking a description. -/
theorem C2_solo_sin_descripcion_counterexample :
    dbEjemploC2.licitaciones.map (·.descripcion) = [some "ya detallada"] ∧
    dbEjemploC2.licitaciones.map (·.puntuacion_final) = [7] ∧
    obtener_candidatas_para_recalculo_fase_1 dbEjemploC2 = [] ∧
    ((_transform_puntajes_fase_1 (fun _ => 3) dbEjemploC2).licitaciones.map
      (·.puntuacion_final)) = [3] := by
  refine ⟨rfl, rfl, ?_, ?_⟩ <;> decide

/-- C2 amended: the live run's phase-1 scoring step uses the all-rows
selection (the same one used for forced recalculation) and rescores every
stored opportunity — with or without a description — from the current
ruleset. -/
theorem C2_seleccion_fase1_amended (fase1 : ItemRawFase1 → Int) (db : BaseDatos)
    (hnd : (db.licitaciones.map (·.ca_id)).Nodup) :
    obtener_todas_candidatas_fase_1_para_recalculo db = db.licitaciones ∧
    (_transform_puntajes_fase_1 fase1 db).licitaciones
      = db.licitaciones.map
          (fun l => { l with puntuacion_final := fase1 (itemRawTransform db l) }) :=
  ⟨rfl, transform_licitaciones fase1 db hnd⟩

/-- Witness for the amended C2 at a concrete store and engine. -/
theorem C2_seleccion_fase1_amended_witness :
    ((dbEjemploC2.licitaciones.map (·.ca_id)).Nodup) ∧
    (obtener_todas_candidatas_fase_1_para_recalculo dbEjemploC2 = dbEjemploC2.licitaciones ∧
     (_transform_puntajes_fase_1 (fun _ => 3) dbEjemploC2).licitaciones
       = dbEjemploC2.licitaciones.map
           (fun l => { l with puntuacion_final := (fun _ => (3 : Int)) (itemRawTransform dbEjemploC2 l) })) :=
  ⟨by decide, C2_seleccion_fase1_amended (fun _ => 3) dbEjemploC2 (by decide)⟩

theorem length_filter_partition (p : α → Bool) (ls : List α) :
    (ls.filter p).length + (ls.filter (fun a => !(p a))).length = ls.length := by
  induction ls with
  | nil => rfl
  | cons x xs ih =>
    by_cases h : p x <;> simp [List.filter_cons, h, ← ih] <;> omega

/-- The DELETE predicate in propositional form (SQL three-valued logic: a
row with a NULL status never matches the `NOT IN`). -/
theorem condicionLimpieza_iff (fav : List Nat) (lim : Int) (l : CaLicitacion) :
    condicionLimpieza fav lim l = true ↔
      (∃ fc, l.fecha_cierre = some fc ∧ fc < lim) ∧
      (∃ s, l.estado_ca_texto = some s ∧ s ≠ "Publicada" ∧ s ≠ "Publicada - Segundo llamado") ∧
      (∀ v, l.estado_convocatoria = some v → v ≠ 2) ∧
      l.ca_id ∉ fav := by
  unfold condicionLimpieza
  cases hf : l.fecha_cierre <;> cases he : l.estado_ca_texto <;>
    cases hc : l.estado_convocatoria <;>
    simp [Bool.and_eq_true, decide_eq_true_iff, and_assoc]

/-- C3 counterexample: with a 30-day window (`now = 0`, closing date 60 days
in the past), a non-favorite opportunity whose status text is absent and
whose convocation flag is absent is NOT deleted by the cleanup (the SQL
`NOT IN` never matches a NULL status), although the claim's conditions —
closing date more than 30 days past, status not one of the two published
states, convocation flag absent, not favorite — all hold for it. -/
theorem C3_limpieza_counterexample :
    ((limpiar_registros_antiguos 30 0 dbEjemploC3).1 = dbEjemploC3 ∧
     (limpiar_registros_antiguos 30 0 dbEjemploC3).2 = 0) ∧
    (dbEjemploC3.licitaciones.map (·.fecha_cierre) = [some (-60)] ∧
     dbEjemploC3.licitaciones.map (·.estado_ca_texto) = [none] ∧
     dbEjemploC3.licitaciones.map (·.estado_convocatoria) = [none] ∧
     dbEjemploC3.seguimientos = []) := by
  refine ⟨⟨?_, ?_⟩, rfl, rfl, rfl, rfl⟩ <;> decide

/-- C3 amended: the retention cleanup with an N-day window deletes exactly
those opportunities whose closing date is more than N days in the past,
whose status text is **present and** neither of the two published states,
whose convocation-state flag is absent or not equal to 2, and which are not
marked favorite; favorites are never deleted, and the returned count is the
number of rows removed. -/
theorem C3_limpieza_amended (dias now : Int) (db : BaseDatos) (l : CaLicitacion)
    (hl : l ∈ db.licitaciones) :
    (l ∈ (limpiar_registros_antiguos dias now db).1.licitaciones ↔
      ¬ ((∃ fc, l.fecha_cierre = some fc ∧ fc < now - dias) ∧
         (∃ s, l.estado_ca_texto = some s ∧ s ≠ "Publicada" ∧
            s ≠ "Publicada - Segundo llamado") ∧
         (∀ v, l.estado_convocatoria = some v → v ≠ 2) ∧
         ¬ (∃ seg ∈ db.seguimientos, seg.ca_id = l.ca_id ∧ seg.es_favorito = true)))
    ∧ ((∃ seg ∈ db.seguimientos, seg.ca_id = l.ca_id ∧ seg.es_favorito = true) →
        l ∈ (limpiar_registros_antiguos dias now db).1.licitaciones)
    ∧ (limpiar_registros_antiguos dias now db).2
        + (limpiar_registros_antiguos dias now db).1.licitaciones.length
        = db.licitaciones.length := by
  have hfav : ∀ x : CaLicitacion,
      (x.ca_id ∈ (db.seguimientos.filter (fun s => s.es_favorito)).map (·.ca_id)) ↔
      (∃ seg ∈ db.seguimientos, seg.ca_id = x.ca_id ∧ seg.es_favorito = true) := by
    intro x
    constructor
    · intro hx
      rcases List.mem_map.mp hx with ⟨seg, hseg, hid⟩
      rw [List.mem_filter] at hseg
      exact ⟨seg, hseg.1, hid, hseg.2⟩
    · rintro ⟨seg, hseg, hid, hfavb⟩
      exact List.mem_map.mpr ⟨seg, List.mem_filter.mpr ⟨hseg, hfavb⟩, hid⟩
  have hmemiff : l ∈ (limpiar_registros_antiguos dias now db).1.licitaciones ↔
      ¬ ((∃ fc, l.fecha_cierre = some fc ∧ fc < now - dias) ∧
         (∃ s, l.estado_ca_texto = some s ∧ s ≠ "Publicada" ∧
            s ≠ "Publicada - Segundo llamado") ∧
         (∀ v, l.estado_convocatoria = some v → v ≠ 2) ∧
         ¬ (∃ seg ∈ db.seguimientos, seg.ca_id = l.ca_id ∧ seg.es_favorito = true)) := by
    unfold limpiar_registros_antiguos
    dsimp only
    rw [List.mem_filter]
    constructor
    · rintro ⟨_, hcond⟩
      rw [Bool.not_eq_true'] at hcond
      intro hclaim
      have : condicionLimpieza
          ((db.seguimientos.filter (fun s => s.es_favorito)).map (·.ca_id))
          (now - dias) l = true := by
        rw [condicionLimpieza_iff]
        refine ⟨hclaim.1, hclaim.2.1, hclaim.2.2.1, ?_⟩
        intro hin
        exact hclaim.2.2.2 ((hfav l).mp hin)
      rw [this] at hcond
      exact Bool.noConfusion hcond
    · intro hclaim
      refine ⟨hl, ?_⟩
      rw [Bool.not_eq_true']
      by_contra hcond
      rw [Bool.not_eq_false, condicionLimpieza_iff] at hcond
      exact hclaim ⟨hcond.1, hcond.2.1, hcond.2.2.1,
        fun hex => hcond.2.2.2 ((hfav l).mpr hex)⟩
  refine ⟨hmemiff, ?_, ?_⟩
  · intro hex
    rw [hmemiff]
    intro hclaim
    exact hclaim.2.2.2 hex
  · unfold limpiar_registros_antiguos
    dsimp only
    exact length_filter_partition _ _

/-- Witness for the amended C3 at the concrete store of the
counterexample. -/
theorem C3_limpieza_amended_witness :
    (caEjemploC3 ∈ dbEjemploC3.licitaciones) ∧
    ((caEjemploC3 ∈ (limpiar_registros_antiguos 30 0 dbEjemploC3).1.licitaciones ↔
      ¬ ((∃ fc, caEjemploC3.fecha_cierre = some fc ∧ fc < 0 - 30) ∧
         (∃ s, caEjemploC3.estado_ca_texto = some s ∧ s ≠ "Publicada" ∧
            s ≠ "Publicada - Segundo llamado") ∧
         (∀ v, caEjemploC3.estado_convocatoria = some v → v ≠ 2) ∧
         ¬ (∃ seg ∈ dbEjemploC3.seguimientos,
              seg.ca_id = caEjemploC3.ca_id ∧ seg.es_favorito = true)))
    ∧ ((∃ seg ∈ dbEjemploC3.seguimientos,
          seg.ca_id = caEjemploC3.ca_id ∧ seg.es_favorito = true) →
        caEjemploC3 ∈ (limpiar_registros_antiguos 30 0 dbEjemploC3).1.licitaciones)
    ∧ (limpiar_registros_antiguos 30 0 dbEjemploC3).2
        + (limpiar_registros_antiguos 30 0 dbEjemploC3).1.licitaciones.length
        = dbEjemploC3.licitaciones.length) :=
  ⟨by decide, C3_limpieza_amended 30 0 dbEjemploC3 caEjemploC3 (by decide)⟩

theorem gc_licitaciones (db : BaseDatos) (a b : String) :
    (_get_or_create_organismo_sector db a b).1.licitaciones = db.licitaciones := by
  unfold _get_or_create_organismo_sector
  dsimp only
  cases db.sectores.find? (fun s => decide (s.nombre = (if b = "" then "No Especificado" else b).trim)) <;>
    dsimp only <;> split <;> rfl

theorem actualizarDesdeRaw_codigo (r : RawItem) (l : CaLicitacion) :
    (actualizarDesdeRaw r l).codigo_ca = l.codigo_ca := by
  unfold actualizarDesdeRaw
  cases r.estado_convocatoria <;> rfl

theorem actualizarDesdeRaw_puntuacion (r : RawItem) (l : CaLicitacion) :
    (actualizarDesdeRaw r l).puntuacion_final = l.puntuacion_final := by
  unfold actualizarDesdeRaw
  cases r.estado_convocatoria <;> rfl

theorem actualizarDesdeRaw_campos (r : RawItem) (l : CaLicitacion) :
    (actualizarDesdeRaw r l).proveedores_cotizando = r.cantidad_provedores_cotizando ∧
    (actualizarDesdeRaw r l).estado_ca_texto = r.estado ∧
    (actualizarDesdeRaw r l).fecha_cierre = r.fecha_cierre ∧
    (∀ v, r.estado_convocatoria = some v →
      (actualizarDesdeRaw r l).estado_convocatoria = some v) := by
  unfold actualizarDesdeRaw
  cases h : r.estado_convocatoria with
  | none =>
    refine ⟨rfl, rfl, rfl, ?_⟩
    intro v hv
    exact Option.noConfusion hv
  | some w =>
    refine ⟨rfl, rfl, rfl, ?_⟩
    intro v hv
    injection hv with hv
    subst hv
    rfl

/-- A single-record upsert whose code already exists updates that row in
place. -/
theorem insertar_single_update (r : RawItem) (db : BaseDatos) (c : String)
    (l0 : CaLicitacion) (h : r.codigoValido = some c)
    (hfind : db.licitaciones.find? (fun l => decide (l.codigo_ca = c)) = some l0) :
    (insertar_o_actualizar_licitaciones_raw (fun _ => false) [r] db).1.licitaciones
      = updateFirst (fun l => decide (l.codigo_ca = c)) (actualizarDesdeRaw r)
          db.licitaciones := by
  simp [insertar_o_actualizar_licitaciones_raw, upsertLoopRaw, h, gc_licitaciones, hfind]

/-- A single-record upsert for an unseen code appends a fresh row with
score 0. -/
theorem insertar_single_insert (r : RawItem) (db : BaseDatos) (c : String)
    (h : r.codigoValido = some c)
    (hfind : db.licitaciones.find? (fun l => decide (l.codigo_ca = c)) = none) :
    ∃ i oid, (insertar_o_actualizar_licitaciones_raw (fun _ => false) [r] db).1.licitaciones
      = db.licitaciones ++ [nuevaLicitacion i c oid r] := by
  refine ⟨(_get_or_create_organismo_sector db (r.organismo.getD "No Especificado")
      (r.unidad.getD "No Especificado")).1.next_id,
    (_get_or_create_organismo_sector db (r.organismo.getD "No Especificado")
      (r.unidad.getD "No Especificado")).2, ?_⟩
  simp [insertar_o_actualizar_licitaciones_raw, upsertLoopRaw, h, gc_licitaciones, hfind]

/-- Full characterisation of one single-record upsert: exactly one row for
the code survives, carrying the record's mutable fields, with the score
taken over from the previous row (or 0 for an insert). -/
theorem upsert_single_spec (r : RawItem) (db : BaseDatos) (c : String)
    (h : r.codigoValido = some c)
    (hnd : (db.licitaciones.map (·.codigo_ca)).Nodup) :
    ∃ l1,
      (insertar_o_actualizar_licitaciones_raw (fun _ => false) [r] db).1.licitaciones.find?
          (fun l => decide (l.codigo_ca = c)) = some l1 ∧
      (insertar_o_actualizar_licitaciones_raw (fun _ => false) [r] db).1.licitaciones.filter
          (fun l => decide (l.codigo_ca = c)) = [l1] ∧
      (((insertar_o_actualizar_licitaciones_raw (fun _ => false) [r] db).1.licitaciones.map
          (·.codigo_ca)).Nodup) ∧
      l1.proveedores_cotizando = r.cantidad_provedores_cotizando ∧
      l1.estado_ca_texto = r.estado ∧
      l1.fecha_cierre = r.fecha_cierre ∧
      (∀ v, r.estado_convocatoria = some v → l1.estado_convocatoria = some v) ∧
      ((∃ l0, db.licitaciones.find? (fun l => decide (l.codigo_ca = c)) = some l0 ∧
          l1.puntuacion_final = l0.puntuacion_final) ∨
       (db.licitaciones.find? (fun l => decide (l.codigo_ca = c)) = none ∧
          l1.puntuacion_final = 0)) := by
  cases hfind : db.licitaciones.find? (fun l => decide (l.codigo_ca = c)) with
  | some l0 =>
    have heq := insertar_single_update r db c l0 h hfind
    have hp := List.find?_some hfind
    have hc0 : l0.codigo_ca = c := of_decide_eq_true hp
    have hfx : decide ((actualizarDesdeRaw r l0).codigo_ca = c) = true := by
      rw [actualizarDesdeRaw_codigo, hc0]
      exact decide_eq_true rfl
    refine ⟨actualizarDesdeRaw r l0, ?_, ?_, ?_, (actualizarDesdeRaw_campos r l0).1,
      (actualizarDesdeRaw_campos r l0).2.1, (actualizarDesdeRaw_campos r l0).2.2.1,
      (actualizarDesdeRaw_campos r l0).2.2.2, Or.inl ⟨l0, rfl,
        actualizarDesdeRaw_puntuacion r l0⟩⟩
    · rw [heq]
      exact find?_updateFirst _ _ _ l0 hfind hfx
    · rw [heq]
      have hnd' : ((updateFirst (fun l => decide (l.codigo_ca = c))
          (actualizarDesdeRaw r) db.licitaciones).map (·.codigo_ca)).Nodup := by
        rw [map_updateFirst _ _ _ (actualizarDesdeRaw_codigo r)]
        exact hnd
      exact filter_key_single (·.codigo_ca) c _ hnd' _
        (find?_updateFirst _ _ _ l0 hfind hfx)
    · rw [heq, map_updateFirst _ _ _ (actualizarDesdeRaw_codigo r)]
      exact hnd
  | none =>
    rcases insertar_single_insert r db c h hfind with ⟨i, oid, heq⟩
    have hcnew : (nuevaLicitacion i c oid r).codigo_ca = c := rfl
    have hnotmem : c ∉ db.licitaciones.map (·.codigo_ca) := by
      intro hmem
      rcases List.mem_map.mp hmem with ⟨l, hl, hlc⟩
      have := List.find?_eq_none.mp hfind l hl
      exact this (decide_eq_true hlc)
    have hndnew : ((db.licitaciones ++ [nuevaLicitacion i c oid r]).map
        (·.codigo_ca)).Nodup := by
      rw [List.map_append]
      rw [List.nodup_append]
      refine ⟨hnd, List.nodup_singleton _, ?_⟩
      intro a ha hb
      simp only [List.map_cons, List.map_nil, List.mem_singleton] at hb
      rw [hb, hcnew] at ha
      exact hnotmem ha
    refine ⟨nuevaLicitacion i c oid r, ?_, ?_, ?_, rfl, rfl, rfl, ?_, ?_⟩
    · rw [heq]
      exact find?_append_right _ _ _ hfind (by rw [hcnew]; exact decide_eq_true rfl)
    · rw [heq, List.filter_append, filter_eq_nil_of_find?_none _ _ hfind]
      simp [List.filter_cons, hcnew]
    · rw [heq]
      exact hndnew
    · intro v hv
      simp only [nuevaLicitacion]
      rw [hv]
    · exact Or.inr ⟨rfl, rfl⟩

/-- C4: ingesting two raw records with the same portal code through the
raw-upsert, one batch after the other, leaves exactly one stored opportunity
for that code; its supplier count, status text, closing date and (when the
record carries one) convocation state come from the second record, and its
score is untouched by the second ingestion. -/
theorem C4_upsert_idempotente (db : BaseDatos) (r1 r2 : RawItem) (c : String)
    (hnd : (db.licitaciones.map (·.codigo_ca)).Nodup)
    (h1 : r1.codigoValido = some c) (h2 : r2.codigoValido = some c) :
    ∃ l1 l2,
      ((insertar_o_actualizar_licitaciones_raw (fun _ => false) [r1] db).1.licitaciones.filter
          (fun l => decide (l.codigo_ca = c)) = [l1]) ∧
      ((insertar_o_actualizar_licitaciones_raw (fun _ => false) [r2]
          (insertar_o_actualizar_licitaciones_raw (fun _ => false) [r1] db).1).1.licitaciones.filter
          (fun l => decide (l.codigo_ca = c)) = [l2]) ∧
      l2.proveedores_cotizando = r2.cantidad_provedores_cotizando ∧
      l2.estado_ca_texto = r2.estado ∧
      l2.fecha_cierre = r2.fecha_cierre ∧
      (∀ v, r2.estado_convocatoria = some v → l2.estado_convocatoria = some v) ∧
      l2.puntuacion_final = l1.puntuacion_final := by
  rcases upsert_single_spec r1 db c h1 hnd with
    ⟨l1, hfind1, hfilter1, hnd1, _, _, _, _, _⟩
  rcases upsert_single_spec r2 _ c h2 hnd1 with
    ⟨l2, _, hfilter2, _, hprov, hest, hfc, hconv, hscore⟩
  refine ⟨l1, l2, hfilter1, hfilter2, hprov, hest, hfc, hconv, ?_⟩
  rcases hscore with ⟨l0, hfind0, hsc⟩ | ⟨hnone, _⟩
  · rw [hfind1] at hfind0
    injection hfind0 with hl
    rw [hsc, hl]
  · rw [hfind1] at hnone
    exact Option.noConfusion hnone

/-- Witness for C4: both ingestions run on an initially empty store. -/
theorem C4_upsert_idempotente_witness :
    ∃ l1 l2,
      ((insertar_o_actualizar_licitaciones_raw (fun _ => false) [rawEjemplo1]
          {}).1.licitaciones.filter
          (fun l => decide (l.codigo_ca = "4444-4-COT25")) = [l1]) ∧
      ((insertar_o_actualizar_licitaciones_raw (fun _ => false) [rawEjemplo2]
          (insertar_o_actualizar_licitaciones_raw (fun _ => false) [rawEjemplo1]
            {}).1).1.licitaciones.filter
          (fun l => decide (l.codigo_ca = "4444-4-COT25")) = [l2]) ∧
      l2.proveedores_cotizando = rawEjemplo2.cantidad_provedores_cotizando ∧
      l2.estado_ca_texto = rawEjemplo2.estado ∧
      l2.fecha_cierre = rawEjemplo2.fecha_cierre ∧
      (∀ v, rawEjemplo2.estado_convocatoria = some v → l2.estado_convocatoria = some v) ∧
      l2.puntuacion_final = l1.puntuacion_final :=
  C4_upsert_idempotente {} rawEjemplo1 rawEjemplo2 "4444-4-COT25"
    (by decide) (by decide) (by decide)

theorem codigosNuevos_cons_none (item : RawItem) (resto : List RawItem)
    (procesados : List String) (h : item.codigoValido = none) :
    codigosNuevos (item :: resto) procesados = codigosNuevos resto procesados := by
  simp [codigosNuevos, List.filterMap_cons, h]

theorem codigosNuevos_cons_seen (item : RawItem) (resto : List RawItem)
    (procesados : List String) (s : String) (h : item.codigoValido = some s)
    (hmem : s ∈ procesados) :
    codigosNuevos (item :: resto) procesados = codigosNuevos resto procesados := by
  simp [codigosNuevos, List.filterMap_cons, h, List.filter_cons, hmem]

theorem codigosNuevos_cons_new (item : RawItem) (resto : List RawItem)
    (procesados : List String) (s : String) (h : item.codigoValido = some s)
    (hmem : s ∉ procesados) :
    codigosNuevos (item :: resto) procesados = s :: codigosNuevos resto procesados := by
  simp [codigosNuevos, List.filterMap_cons, h, List.filter_cons, hmem]

theorem codigosNuevos_seen_filter (resto : List RawItem) (procesados : List String)
    (s : String) :
    codigosNuevos resto (s :: procesados)
      = (codigosNuevos resto procesados).filter (fun x => !(decide (x = s))) := by
  unfold codigosNuevos
  rw [List.filter_filter]
  apply List.filter_congr
  intro x _
  by_cases hx : x = s <;> by_cases hp : x ∈ procesados <;>
    simp [hx, hp, List.mem_cons]

theorem exists_codigosNuevos_cons (failOn : String → Bool) (s : String)
    (resto : List RawItem) (procesados : List String) (hfail : failOn s = false) :
    (∃ c ∈ codigosNuevos resto (s :: procesados), failOn c = true) ↔
    (∃ c ∈ s :: codigosNuevos resto procesados, failOn c = true) := by
  rw [codigosNuevos_seen_filter]
  constructor
  · rintro ⟨c, hc, hfc⟩
    rw [List.mem_filter] at hc
    exact ⟨c, List.mem_cons_of_mem _ hc.1, hfc⟩
  · rintro ⟨c, hc, hfc⟩
    rcases List.mem_cons.mp hc with rfl | hc2
    · rw [hfail] at hfc
      exact Bool.noConfusion hfc
    · refine ⟨c, List.mem_filter.mpr ⟨hc2, ?_⟩, hfc⟩
      simp only [Bool.not_eq_eq_eq_not, Bool.not_true, decide_eq_false_iff_not]
      intro hcs
      rw [hcs, hfail] at hfc
      exact Bool.noConfusion hfc

/-- The batch loop raises exactly when some actually-processed (non-missing,
non-duplicate) code hits the injected failure. -/
theorem upsertLoopRaw_error_iff (failOn : String → Bool) :
    ∀ (compras : List RawItem) (db : BaseDatos) (procesados : List String)
      (counts : UpsertCounts),
    (upsertLoopRaw failOn compras db procesados counts = .error ()) ↔
    ∃ c ∈ codigosNuevos compras procesados, failOn c = true := by
  intro compras
  induction compras with
  | nil =>
    intro db procesados counts
    simp [upsertLoopRaw, codigosNuevos]
  | cons item resto ih =>
    intro db procesados counts
    cases hcv : item.codigoValido with
    | none =>
      rw [codigosNuevos_cons_none item resto procesados hcv]
      simp only [upsertLoopRaw, hcv]
      exact ih db procesados _
    | some s =>
      by_cases hmem : s ∈ procesados
      · rw [codigosNuevos_cons_seen item resto procesados s hcv hmem]
        simp only [upsertLoopRaw, hcv, if_pos hmem]
        exact ih db procesados _
      · rw [codigosNuevos_cons_new item resto procesados s hcv hmem]
        by_cases hfail : failOn s = true
        · simp only [upsertLoopRaw, hcv, if_neg hmem, if_pos hfail]
          constructor
          · intro _
            exact ⟨s, List.mem_cons_self _ _, hfail⟩
          · intro _
            trivial
        · rw [Bool.not_eq_true] at hfail
          simp only [upsertLoopRaw, hcv, if_neg hmem, hfail, Bool.false_eq_true,
            if_false]
          rw [← exists_codigosNuevos_cons failOn s resto procesados hfail]
          cases hff : (_get_or_create_organismo_sector db (item.organismo.getD "No Especificado")
              (item.unidad.getD "No Especificado")).1.licitaciones.find?
              (fun l => decide (l.codigo_ca = s)) with
          | some l0 => exact ih _ _ _
          | none => exact ih _ _ _

/-- Counting invariant of the batch loop: skipped = length − distinct new
codes; processed = distinct new codes; stored-row growth = inserts. -/
theorem upsertLoopRaw_ok_counts (failOn : String → Bool) :
    ∀ (compras : List RawItem) (db : BaseDatos) (procesados : List String)
      (counts : UpsertCounts) (db2 : BaseDatos) (c2 : UpsertCounts),
    upsertLoopRaw failOn compras db procesados counts = .ok (db2, c2) →
    c2.omitidos_duplicados + (dedupFirst (codigosNuevos compras procesados)).length
        = counts.omitidos_duplicados + compras.length
    ∧ c2.nuevos + c2.actualizaciones
        = counts.nuevos + counts.actualizaciones
            + (dedupFirst (codigosNuevos compras procesados)).length
    ∧ db2.licitaciones.length + counts.nuevos = db.licitaciones.length + c2.nuevos := by
  intro compras
  induction compras with
  | nil =>
    intro db procesados counts db2 c2 h
    simp only [upsertLoopRaw, Except.ok.injEq, Prod.mk.injEq] at h
    obtain ⟨rfl, rfl⟩ := h
    simp [codigosNuevos, dedupFirst]
  | cons item resto ih =>
    intro db procesados counts db2 c2 h
    cases hcv : item.codigoValido with
    | none =>
      rw [codigosNuevos_cons_none item resto procesados hcv]
      simp only [upsertLoopRaw, hcv] at h
      rcases ih db procesados _ db2 c2 h with ⟨e1, e2, e3⟩
      dsimp only at e1 e2 e3
      refine ⟨?_, ?_, e3⟩ <;> (try simp only [List.length_cons]) <;> omega
    | some s =>
      by_cases hmem : s ∈ procesados
      · rw [codigosNuevos_cons_seen item resto procesados s hcv hmem]
        simp only [upsertLoopRaw, hcv, if_pos hmem] at h
        rcases ih db procesados _ db2 c2 h with ⟨e1, e2, e3⟩
        dsimp only at e1 e2 e3
        refine ⟨?_, ?_, e3⟩ <;> (try simp only [List.length_cons]) <;> omega
      · rw [codigosNuevos_cons_new item resto procesados s hcv hmem]
        by_cases hfail : failOn s = true
        · simp only [upsertLoopRaw, hcv, if_neg hmem, if_pos hfail] at h
          exact absurd h (by simp)
        · rw [Bool.not_eq_true] at hfail
          simp only [upsertLoopRaw, hcv, if_neg hmem, hfail, Bool.false_eq_true,
            if_false] at h
          have hD : dedupFirst (s :: codigosNuevos resto procesados)
              = s :: dedupFirst (codigosNuevos resto (s :: procesados)) := by
            rw [dedupFirst, codigosNuevos_seen_filter]
          cases hff : (_get_or_create_organismo_sector db (item.organismo.getD "No Especificado")
              (item.unidad.getD "No Especificado")).1.licitaciones.find?
              (fun l => decide (l.codigo_ca = s)) with
          | some l0 =>
            rw [hff] at h
            rcases ih _ _ _ db2 c2 h with ⟨e1, e2, e3⟩
            dsimp only at e1 e2 e3
            rw [hD]
            have hlen : (updateFirst (fun l => decide (l.codigo_ca = s))
                (actualizarDesdeRaw item)
                (_get_or_create_organismo_sector db (item.organismo.getD "No Especificado")
                  (item.unidad.getD "No Especificado")).1.licitaciones).length
                = db.licitaciones.length := by
              rw [length_updateFirst, gc_licitaciones]
            simp only [hlen] at e3
            refine ⟨?_, ?_, ?_⟩ <;> (try simp only [List.length_cons]) <;> omega
          | none =>
            rw [hff] at h
            rcases ih _ _ _ db2 c2 h with ⟨e1, e2, e3⟩
            dsimp only at e1 e2 e3
            rw [hD]
            have hlen : ((_get_or_create_organismo_sector db (item.organismo.getD "No Especificado")
                (item.unidad.getD "No Especificado")).1.licitaciones
                ++ [nuevaLicitacion (_get_or_create_organismo_sector db
                      (item.organismo.getD "No Especificado")
                      (item.unidad.getD "No Especificado")).1.next_id s
                      (_get_or_create_organismo_sector db (item.organismo.getD "No Especificado")
                      (item.unidad.getD "No Especificado")).2 item]).length
                = db.licitaciones.length + 1 := by
              rw [List.length_append, gc_licitaciones]
              rfl
            simp only [hlen] at e3
            refine ⟨?_, ?_, ?_⟩ <;> (try simp only [List.length_cons]) <;> omega

/-- C5: the raw upsert is atomic over its batch — a processing failure on
any record rolls the whole transaction back (the visible store is the
original one, no agency/sector/opportunity write survives) and re-raises;
records missing a code or repeating a code within the batch are counted as
skipped and never fail the batch; on success the counters account for every
record and only inserts grow the store. -/
theorem C5_upsert_atomico (failOn : String → Bool) (compras : List RawItem)
    (db : BaseDatos) :
    ((insertar_o_actualizar_licitaciones_raw failOn compras db).2 = none →
      (insertar_o_actualizar_licitaciones_raw failOn compras db).1 = db)
    ∧ ((insertar_o_actualizar_licitaciones_raw failOn compras db).2 = none ↔
        ∃ c ∈ codigosNuevos compras [], failOn c = true)
    ∧ (∀ db2 c2, insertar_o_actualizar_licitaciones_raw failOn compras db = (db2, some c2) →
        c2.omitidos_duplicados + (dedupFirst (codigosNuevos compras [])).length
            = compras.length
        ∧ c2.nuevos + c2.actualizaciones = (dedupFirst (codigosNuevos compras [])).length
        ∧ db2.licitaciones.length = db.licitaciones.length + c2.nuevos) := by
  unfold insertar_o_actualizar_licitaciones_raw
  cases hloop : upsertLoopRaw failOn compras db [] {} with
  | ok pair =>
    obtain ⟨dbw, cw⟩ := pair
    dsimp only
    refine ⟨fun h => Option.noConfusion h, ?_, ?_⟩
    · constructor
      · intro h
        exact absurd h (by simp)
      · intro hex
        have := (upsertLoopRaw_error_iff failOn compras db [] {}).mpr hex
        rw [hloop] at this
        exact Except.noConfusion this
    · intro db2 c2 h
      rw [Prod.mk.injEq] at h
      obtain ⟨rfl, hsome⟩ := h
      injection hsome with hsome
      subst hsome
      rcases upsertLoopRaw_ok_counts failOn compras db [] {} dbw cw hloop with ⟨e1, e2, e3⟩
      have h0 : ({} : UpsertCounts).omitidos_duplicados = 0 := rfl
      have h1 : ({} : UpsertCounts).nuevos = 0 := rfl
      have h2 : ({} : UpsertCounts).actualizaciones = 0 := rfl
      refine ⟨?_, ?_, ?_⟩ <;> omega
  | error e =>
    obtain ⟨⟩ := e
    dsimp only
    refine ⟨fun _ => rfl, ?_, ?_⟩
    · constructor
      · intro _
        exact (upsertLoopRaw_error_iff failOn compras db [] {}).mp hloop
      · intro _
        rfl
    · intro db2 c2 h
      rw [Prod.mk.injEq] at h
      exact Option.noConfusion h.2

/-- Witness for C5: a batch whose only record's code hits the injected
failure is rolled back — the visible store is unchanged. -/
theorem C5_upsert_atomico_witness :
    (insertar_o_actualizar_licitaciones_raw (fun c => decide (c = "FALLA-1"))
        [{ codigo := some "FALLA-1" }, rawEjemplo1] dbEjemploC1).2 = none ∧
    (insertar_o_actualizar_licitaciones_raw (fun c => decide (c = "FALLA-1"))
        [{ codigo := some "FALLA-1" }, rawEjemplo1] dbEjemploC1).1 = dbEjemploC1 :=
  ⟨by decide,
   (C5_upsert_atomico (fun c => decide (c = "FALLA-1"))
      [{ codigo := some "FALLA-1" }, rawEjemplo1] dbEjemploC1).1 (by decide)⟩

/-- C6: marking bid-submitted true always forces favorite true: with no
tracking row one is created with both flags true (and no note), and with an
existing row (whatever its favorite flag) both flags are set true. -/
theorem C6_ofertada_fuerza_favorito (db : BaseDatos) (ca_id : Nat) :
    ∃ s, (gestionar_ofertada ca_id true db).seguimientos.find?
        (fun t => decide (t.ca_id = ca_id)) = some s ∧
      s.es_favorito = true ∧ s.es_ofertada = true ∧
      (db.seguimientos.find? (fun t => decide (t.ca_id = ca_id)) = none →
        s = { ca_id := ca_id, es_favorito := true, es_ofertada := true, notas := none }) := by
  unfold gestionar_ofertada _gestionar_seguimiento
  cases hf : db.seguimientos.find? (fun t => decide (t.ca_id = ca_id)) with
  | some s0 =>
    dsimp only
    have hp := List.find?_some hf
    have hid : s0.ca_id = ca_id := of_decide_eq_true hp
    refine ⟨{ s0 with es_ofertada := true, es_favorito := true }, ?_, rfl, rfl,
      fun hc => Option.noConfusion hc⟩
    have := find?_updateFirst (fun t => decide (t.ca_id = ca_id))
      (fun s => { s with es_ofertada := true, es_favorito := true }) db.seguimientos s0 hf
      (by simp [hid])
    simpa using this
  | none =>
    dsimp only
    simp only [Option.getD_none, Option.getD_some, Bool.false_or, if_true]
    refine ⟨{ ca_id := ca_id, es_favorito := true, es_ofertada := true, notas := none },
      ?_, rfl, rfl, fun _ => rfl⟩
    exact find?_append_right _ _ _ hf (by simp)

/-- C9: setting the favorite flag on an existing tracking row changes only
that flag — bid-submitted and notes are untouched, the opportunity table is
untouched, and every tracking row either survives unchanged or is the
favorite-flag rewrite of an existing row with that id.  In particular,
clearing favorite on a row with bid-submitted true leaves `es_ofertada =
true` and `es_favorito = false`. -/
theorem C9_favorito_frame (db : BaseDatos) (ca_id : Nat) (fav : Bool)
    (s0 : CaSeguimiento)
    (hf : db.seguimientos.find? (fun t => decide (t.ca_id = ca_id)) = some s0) :
    (gestionar_favorito ca_id fav db).seguimientos.find?
        (fun t => decide (t.ca_id = ca_id)) = some { s0 with es_favorito := fav } ∧
    ({ s0 with es_favorito := fav } : CaSeguimiento).es_ofertada = s0.es_ofertada ∧
    ({ s0 with es_favorito := fav } : CaSeguimiento).notas = s0.notas ∧
    (gestionar_favorito ca_id fav db).licitaciones = db.licitaciones ∧
    (∀ t ∈ (gestionar_favorito ca_id fav db).seguimientos,
      t ∈ db.seguimientos ∨
      ∃ x ∈ db.seguimientos, x.ca_id = ca_id ∧ t = { x with es_favorito := fav }) := by
  unfold gestionar_favorito _gestionar_seguimiento
  rw [hf]
  dsimp only
  have hp := List.find?_some hf
  have hid : s0.ca_id = ca_id := of_decide_eq_true hp
  refine ⟨?_, rfl, rfl, rfl, ?_⟩
  · have := find?_updateFirst (fun t => decide (t.ca_id = ca_id))
      (fun s => { s with es_favorito := fav }) db.seguimientos s0 hf (by simp [hid])
    simpa using this
  · intro t ht
    rcases mem_updateFirst _ _ _ _ ht with hmem | ⟨x, hx, hpx, rfl⟩
    · exact Or.inl hmem
    · exact Or.inr ⟨x, hx, of_decide_eq_true hpx, rfl⟩

/-- C10: tracking rows are created lazily — setting favorite or
bid-submitted to false with no tracking row leaves the store untouched,
while writing a note with no tracking row creates one with both flags false
and the given note. -/
theorem C10_seguimiento_lazy (db : BaseDatos) (ca_id : Nat) (nota : String)
    (hf : db.seguimientos.find? (fun t => decide (t.ca_id = ca_id)) = none) :
    gestionar_favorito ca_id false db = db ∧
    gestionar_ofertada ca_id false db = db ∧
    (actualizar_nota_seguimiento ca_id nota db).seguimientos
      = db.seguimientos
          ++ [{ ca_id := ca_id, es_favorito := false, es_ofertada := false,
                notas := some nota }] ∧
    (actualizar_nota_seguimiento ca_id nota db).licitaciones = db.licitaciones := by
  unfold gestionar_favorito gestionar_ofertada _gestionar_seguimiento
    actualizar_nota_seguimiento
  rw [hf]
  refine ⟨?_, ?_, rfl, rfl⟩ <;> simp

/-- Witness for C9 at a concrete store whose tracking row has bid-submitted
true: clearing favorite keeps `es_ofertada` and the note. -/
theorem C9_favorito_frame_witness :
    ((gestionar_favorito 7 false
        { seguimientos := [{ ca_id := 7, es_favorito := true, es_ofertada := true,
                             notas := some "oferta enviada" }] }).seguimientos.find?
        (fun t => decide (t.ca_id = 7))
      = some { ca_id := 7, es_favorito := false, es_ofertada := true,
               notas := some "oferta enviada" }) ∧
    ({ ca_id := 7, es_favorito := false, es_ofertada := true,
       notas := some "oferta enviada" } : CaSeguimiento).es_ofertada
      = ({ ca_id := 7, es_favorito := true, es_ofertada := true,
           notas := some "oferta enviada" } : CaSeguimiento).es_ofertada ∧
    ({ ca_id := 7, es_favorito := false, es_ofertada := true,
       notas := some "oferta enviada" } : CaSeguimiento).notas
      = ({ ca_id := 7, es_favorito := true, es_ofertada := true,
           notas := some "oferta enviada" } : CaSeguimiento).notas ∧
    (gestionar_favorito 7 false
        { seguimientos := [{ ca_id := 7, es_favorito := true, es_ofertada := true,
                             notas := some "oferta enviada" }] }).licitaciones
      = ({ seguimientos := [{ ca_id := 7, es_favorito := true, es_ofertada := true,
                              notas := some "oferta enviada" }] } : BaseDatos).licitaciones ∧
    (∀ t ∈ (gestionar_favorito 7 false
        { seguimientos := [{ ca_id := 7, es_favorito := true, es_ofertada := true,
                             notas := some "oferta enviada" }] }).seguimientos,
      t ∈ ({ seguimientos := [{ ca_id := 7, es_favorito := true, es_ofertada := true,
                                notas := some "oferta enviada" }] } : BaseDatos).seguimientos ∨
      ∃ x ∈ ({ seguimientos := [{ ca_id := 7, es_favorito := true, es_ofertada := true,
                                   notas := some "oferta enviada" }] } : BaseDatos).seguimientos,
        x.ca_id = 7 ∧ t = { x with es_favorito := false }) :=
  C9_favorito_frame
    { seguimientos := [{ ca_id := 7, es_favorito := true, es_ofertada := true,
                         notas := some "oferta enviada" }] }
    7 false
    { ca_id := 7, es_favorito := true, es_ofertada := true, notas := some "oferta enviada" }
    (by decide)

/-- Witness for C10 at an empty store. -/
theorem C10_seguimiento_lazy_witness :
    gestionar_favorito 3 false {} = {} ∧
    gestionar_ofertada 3 false {} = {} ∧
    (actualizar_nota_seguimiento 3 "revisar" {}).seguimientos
      = ({} : BaseDatos).seguimientos
          ++ [{ ca_id := 3, es_favorito := false, es_ofertada := false,
                notas := some "revisar" }] ∧
    (actualizar_nota_seguimiento 3 "revisar" {}).licitaciones
      = ({} : BaseDatos).licitaciones :=
  C10_seguimiento_lazy {} 3 "revisar" (by decide)

theorem reglas_update_spec (rs : List CaOrganismoRegla) (org : Nat)
    (tipo : TipoReglaOrganismo) (pts : Option Int) (r0 : CaOrganismoRegla)
    (hnd : (rs.map (·.organismo_id)).Nodup)
    (hfr : rs.find? (fun r => decide (r.organismo_id = org)) = some r0) :
    ((updateFirst (fun r => decide (r.organismo_id = org))
        (fun r => { r with tipo := tipo, puntos := pts }) rs).filter
        (fun r => decide (r.organismo_id = org)))
      = [{ r0 with tipo := tipo, puntos := pts }] ∧
    (((updateFirst (fun r => decide (r.organismo_id = org))
        (fun r => { r with tipo := tipo, puntos := pts }) rs).map
        (·.organismo_id)).Nodup) ∧
    (∀ r ∈ updateFirst (fun r => decide (r.organismo_id = org))
        (fun r => { r with tipo := tipo, puntos := pts }) rs,
      r.organismo_id ≠ org → r ∈ rs) := by
  have hp := List.find?_some hfr
  have hid : r0.organismo_id = org := of_decide_eq_true hp
  have hmap := map_updateFirst (fun r => decide (r.organismo_id = org))
    (fun r => { r with tipo := tipo, puntos := pts }) (·.organismo_id) (fun a => rfl) rs
  have hnd2 : ((updateFirst (fun r => decide (r.organismo_id = org))
      (fun r => { r with tipo := tipo, puntos := pts }) rs).map
      (·.organismo_id)).Nodup := by rw [hmap]; exact hnd
  refine ⟨?_, hnd2, ?_⟩
  · exact filter_key_single (·.organismo_id) org _ hnd2 _
      (find?_updateFirst _ _ _ r0 hfr (by simp [hid]))
  · intro r hr hne
    rcases mem_updateFirst _ _ _ _ hr with hmem | ⟨x, _, hpx, rfl⟩
    · exact hmem
    · exact absurd (of_decide_eq_true hpx) hne

theorem reglas_insert_spec (rs : List CaOrganismoRegla) (org : Nat)
    (tipo : TipoReglaOrganismo) (pts : Option Int) (nid : Nat)
    (hnd : (rs.map (·.organismo_id)).Nodup)
    (hfr : rs.find? (fun r => decide (r.organismo_id = org)) = none) :
    ((rs ++ [({ regla_id := nid, organismo_id := org, tipo := tipo, puntos := pts } : CaOrganismoRegla)]).filter (fun r => decide (r.organismo_id = org)))
      = [({ regla_id := nid, organismo_id := org, tipo := tipo, puntos := pts } : CaOrganismoRegla)] ∧
    (((rs ++ [({ regla_id := nid, organismo_id := org, tipo := tipo, puntos := pts } : CaOrganismoRegla)]).map (·.organismo_id)).Nodup) ∧
    (∀ r ∈ rs ++ [({ regla_id := nid, organismo_id := org, tipo := tipo, puntos := pts } : CaOrganismoRegla)],
      r.organismo_id ≠ org → r ∈ rs) := by
  have hnotmem : org ∉ rs.map (·.organismo_id) := by
    intro hmem
    rcases List.mem_map.mp hmem with ⟨r, hr, hrc⟩
    exact (List.find?_eq_none.mp hfr r hr) (decide_eq_true hrc)
  refine ⟨?_, ?_, ?_⟩
  · rw [List.filter_append, filter_eq_nil_of_find?_none _ _ hfr]
    simp [List.filter_cons]
  · rw [List.map_append, List.nodup_append]
    refine ⟨hnd, List.nodup_singleton _, ?_⟩
    intro a ha hb
    simp only [List.map_cons, List.map_nil, List.mem_singleton] at hb
    rw [hb] at ha
    exact hnotmem ha
  · intro r hr hne
    rcases List.mem_append.mp hr with hmem | hmem
    · exact hmem
    · rw [List.mem_singleton] at hmem
      rw [hmem] at hne
      exact absurd rfl hne

/-- C7: `set_organismo_regla` raises exactly when given a `prioritario` rule
with no point value (the error carries no store: nothing is written); a
`no_deseado` rule always stores a null point value regardless of the points
passed; and on success there is exactly one rule for the agency (a second
call replaces, never duplicates), rules of other agencies are untouched, and
per-agency uniqueness is preserved. -/
theorem C7_regla_organismo (db : BaseDatos) (org : Nat)
    (tipo : TipoReglaOrganismo) (puntos : Option Int)
    (hnd : (db.reglas.map (·.organismo_id)).Nodup) :
    (set_organismo_regla org tipo puntos db = .error () ↔
      tipo = TipoReglaOrganismo.prioritario ∧ puntos = none) ∧
    (∀ db2, set_organismo_regla org tipo puntos db = .ok db2 →
      ((db2.reglas.filter (fun r => decide (r.organismo_id = org))).length = 1) ∧
      (tipo = TipoReglaOrganismo.no_deseado →
        ∀ r ∈ db2.reglas, r.organismo_id = org → r.puntos = none) ∧
      ((db2.reglas.map (·.organismo_id)).Nodup) ∧
      (∀ r ∈ db2.reglas, r.organismo_id ≠ org → r ∈ db.reglas)) := by
  cases tipo with
  | prioritario =>
    cases puntos with
    | none =>
      constructor
      · simp [set_organismo_regla]
      · intro db2 hok
        simp [set_organismo_regla] at hok
    | some p =>
      constructor
      · unfold set_organismo_regla
        cases hfr : db.reglas.find? (fun r => decide (r.organismo_id = org)) <;> simp
      · intro db2 hok
        unfold set_organismo_regla at hok
        cases hfr : db.reglas.find? (fun r => decide (r.organismo_id = org)) with
        | some r0 =>
          rw [hfr] at hok
          simp at hok
          have hreg : db2.reglas = updateFirst (fun r => decide (r.organismo_id = org))
              (fun r => { r with tipo := TipoReglaOrganismo.prioritario, puntos := some p })
              db.reglas := by rw [← hok]
          rcases reglas_update_spec db.reglas org TipoReglaOrganismo.prioritario (some p)
            r0 hnd hfr with ⟨h1, h2, h3⟩
          refine ⟨?_, fun hcontra => TipoReglaOrganismo.noConfusion hcontra, ?_, ?_⟩
          · rw [hreg, h1]
            rfl
          · rw [hreg]
            exact h2
          · intro r hr hne
            rw [hreg] at hr
            exact h3 r hr hne
        | none =>
          rw [hfr] at hok
          simp at hok
          have hreg : db2.reglas = db.reglas
              ++ [({ regla_id := db.next_id, organismo_id := org, tipo := TipoReglaOrganismo.prioritario, puntos := some p } : CaOrganismoRegla)] := by
            rw [← hok]
          rcases reglas_insert_spec db.reglas org TipoReglaOrganismo.prioritario (some p)
            db.next_id hnd hfr with ⟨h1, h2, h3⟩
          refine ⟨?_, fun hcontra => TipoReglaOrganismo.noConfusion hcontra, ?_, ?_⟩
          · rw [hreg, h1]
            rfl
          · rw [hreg]
            exact h2
          · intro r hr hne
            rw [hreg] at hr
            exact h3 r hr hne
  | no_deseado =>
    constructor
    · unfold set_organismo_regla
      cases hfr : db.reglas.find? (fun r => decide (r.organismo_id = org)) <;> simp
    · intro db2 hok
      unfold set_organismo_regla at hok
      cases hfr : db.reglas.find? (fun r => decide (r.organismo_id = org)) with
      | some r0 =>
        rw [hfr] at hok
        simp at hok
        have hreg : db2.reglas = updateFirst (fun r => decide (r.organismo_id = org))
            (fun r => { r with tipo := TipoReglaOrganismo.no_deseado, puntos := none })
            db.reglas := by rw [← hok]
        rcases reglas_update_spec db.reglas org TipoReglaOrganismo.no_deseado none
          r0 hnd hfr with ⟨h1, h2, h3⟩
        refine ⟨?_, ?_, ?_, ?_⟩
        · rw [hreg, h1]
          rfl
        · intro _ r hr hrorg
          have hmem : r ∈ (updateFirst (fun r => decide (r.organismo_id = org))
              (fun r => { r with tipo := TipoReglaOrganismo.no_deseado, puntos := none })
              db.reglas).filter (fun r => decide (r.organismo_id = org)) := by
            rw [hreg] at hr
            exact List.mem_filter.mpr ⟨hr, decide_eq_true hrorg⟩
          rw [h1, List.mem_singleton] at hmem
          rw [hmem]
        · rw [hreg]
          exact h2
        · intro r hr hne
          rw [hreg] at hr
          exact h3 r hr hne
      | none =>
        rw [hfr] at hok
        simp at hok
        have hreg : db2.reglas = db.reglas
            ++ [({ regla_id := db.next_id, organismo_id := org, tipo := TipoReglaOrganismo.no_deseado, puntos := none } : CaOrganismoRegla)] := by
          rw [← hok]
        rcases reglas_insert_spec db.reglas org TipoReglaOrganismo.no_deseado none
          db.next_id hnd hfr with ⟨h1, h2, h3⟩
        refine ⟨?_, ?_, ?_, ?_⟩
        · rw [hreg, h1]
          rfl
        · intro _ r hr hrorg
          have hmem : r ∈ (db.reglas
              ++ [({ regla_id := db.next_id, organismo_id := org, tipo := TipoReglaOrganismo.no_deseado, puntos := none } : CaOrganismoRegla)]).filter
              (fun r => decide (r.organismo_id = org)) := by
            rw [hreg] at hr
            exact List.mem_filter.mpr ⟨hr, decide_eq_true hrorg⟩
          rw [h1, List.mem_singleton] at hmem
          rw [hmem]
        · rw [hreg]
          exact h2
        · intro r hr hne
          rw [hreg] at hr
          exact h3 r hr hne

/-- Witness for C7: a `no_deseado` rule written with points 99 over an
existing `prioritario` rule stores a null point value and replaces the rule
in place. -/
theorem C7_regla_organismo_witness :
    (set_organismo_regla 5 TipoReglaOrganismo.no_deseado (some 99)
        { reglas := [{ regla_id := 1, organismo_id := 5,
                       tipo := TipoReglaOrganismo.prioritario, puntos := some 2 }] }
      = .error () ↔
      TipoReglaOrganismo.no_deseado = TipoReglaOrganismo.prioritario ∧
        (some 99 : Option Int) = none) ∧
    (∀ db2, set_organismo_regla 5 TipoReglaOrganismo.no_deseado (some 99)
        { reglas := [{ regla_id := 1, organismo_id := 5,
                       tipo := TipoReglaOrganismo.prioritario, puntos := some 2 }] }
        = .ok db2 →
      ((db2.reglas.filter (fun r => decide (r.organismo_id = 5))).length = 1) ∧
      (TipoReglaOrganismo.no_deseado = TipoReglaOrganismo.no_deseado →
        ∀ r ∈ db2.reglas, r.organismo_id = 5 → r.puntos = none) ∧
      ((db2.reglas.map (·.organismo_id)).Nodup) ∧
      (∀ r ∈ db2.reglas, r.organismo_id ≠ 5 →
        r ∈ ({ reglas := [{ regla_id := 1, organismo_id := 5,
                            tipo := TipoReglaOrganismo.prioritario, puntos := some 2 }] }
          : BaseDatos).reglas)) :=
  C7_regla_organismo
    { reglas := [{ regla_id := 1, organismo_id := 5,
                   tipo := TipoReglaOrganismo.prioritario, puntos := some 2 }] }
    5 TipoReglaOrganismo.no_deseado (some 99) (by decide)

/-- C8 counterexample: the exported `Productos` cell is the Python `str()`
of the stored product list — here `[\x7b'nombre': 'Amoxicilina'\x7d]` — not
the semicolon-joined 100-character-truncated string of product names
(`"Amoxicilina"`) that the claim describes. -/
theorem C8_productos_export_counterexample :
    (_convertir_a_fila dbEjemploC8 caEjemploC8).productos
        ≠ some (productosSemicolonTruncadoSpec [productoEjemplo]) ∧
    (_convertir_a_fila dbEjemploC8 caEjemploC8).productos
        = some (pyStrProductos [productoEjemplo]) ∧
    productosSemicolonTruncadoSpec [productoEjemplo] = "Amoxicilina" := by
  refine ⟨?_, rfl, ?_⟩ <;> decide

/-- C8 amended: the three detailed tabs export the requested-products list
as the Python string conversion of the stored structured list (the
semicolon-joined 100-character truncation exists only in the GUI tables),
while every Candidates-tab export uses exactly the 9-column simple schema,
which omits the description, products, notes and favorite/bid-submitted
columns of the 14-column detailed schema. -/
theorem C8_export_schema_amended (tab_name : String)
    (h : pyStartsWith tab_name "CAs Candidatas" = true) :
    _aplicar_schema_columnas tab_name
      = ["Score", "Código CA", "Nombre", "Organismo", "Dirección Entrega",
         "Estado", "Fecha Publicación", "Fecha Cierre", "Proveedores"] ∧
    (_aplicar_schema_columnas tab_name).length = 9 ∧
    "Descripcion" ∉ _aplicar_schema_columnas tab_name ∧
    "Productos" ∉ _aplicar_schema_columnas tab_name ∧
    "Notas" ∉ _aplicar_schema_columnas tab_name ∧
    "Favorito" ∉ _aplicar_schema_columnas tab_name ∧
    "Ofertada" ∉ _aplicar_schema_columnas tab_name ∧
    (∀ (db : BaseDatos) (ca : CaLicitacion) (ps : List Producto),
      ca.productos_solicitados = some ps → ps ≠ [] →
      (_convertir_a_fila db ca).productos = some (pyStrProductos ps)) ∧
    columnas_detalladas.length = 14 := by
  have hcols : _aplicar_schema_columnas tab_name = columnas_tab_1 := by
    unfold _aplicar_schema_columnas
    rw [if_pos h]
  rw [hcols]
  refine ⟨rfl, rfl, by decide, by decide, by decide, by decide, by decide, ?_, rfl⟩
  intro db ca ps hps hne
  show productosExportCell ca.productos_solicitados = some (pyStrProductos ps)
  rw [hps]
  simp [productosExportCell, hne]

/-- Witness for the amended C8 at the concrete Candidates tab name used by
the current-tab export path. -/
theorem C8_export_schema_amended_witness :
    (pyStartsWith "CAs Candidatas (Fase 1)" "CAs Candidatas" = true) ∧
    (_aplicar_schema_columnas "CAs Candidatas (Fase 1)"
      = ["Score", "Código CA", "Nombre", "Organismo", "Dirección Entrega",
         "Estado", "Fecha Publicación", "Fecha Cierre", "Proveedores"] ∧
    (_aplicar_schema_columnas "CAs Candidatas (Fase 1)").length = 9 ∧
    "Descripcion" ∉ _aplicar_schema_columnas "CAs Candidatas (Fase 1)" ∧
    "Productos" ∉ _aplicar_schema_columnas "CAs Candidatas (Fase 1)" ∧
    "Notas" ∉ _aplicar_schema_columnas "CAs Candidatas (Fase 1)" ∧
    "Favorito" ∉ _aplicar_schema_columnas "CAs Candidatas (Fase 1)" ∧
    "Ofertada" ∉ _aplicar_schema_columnas "CAs Candidatas (Fase 1)" ∧
    (∀ (db : BaseDatos) (ca : CaLicitacion) (ps : List Producto),
      ca.productos_solicitados = some ps → ps ≠ [] →
      (_convertir_a_fila db ca).productos = some (pyStrProductos ps)) ∧
    columnas_detalladas.length = 14) :=
  ⟨by decide, C8_export_schema_amended "CAs Candidatas (Fase 1)" (by decide)⟩

end CAMonitor
